import Mathlib

/-! # VirtualMachine API types (package v1alpha1)

A shallow embedding of `apis/compute/v1alpha1/virtualmachine_types.go`.

The Go file declares the `VirtualMachineParameters`, `VirtualMachineList`
(and surrounding) struct types with their JSON struct tags, the four derived
type-identity variables and the `init` function that registers the types with
the scheme builder.  The structs are embedded as Lean structures; the meaning
of the struct tags is the one the package `encoding/json` of the Go standard
library gives them:

* a field without `omitempty` is always emitted;
* a pointer field with `omitempty` is omitted exactly when the pointer is nil;
* a nil slice is emitted as `null`, a non-nil slice as an array;
* a string is emitted coerced to valid UTF-8: every byte that starts no
  well-formed encoding becomes U+FFFD;
* decoding starts from the zero value of the target, matches a key with a tag
  without regard to case, ignores unknown keys, decodes a repeated key into
  what the earlier occurrence left and fails on a value of the wrong JSON type.

Modelling conventions: a Go pointer `*T` is `Option T` (`none` is nil), a Go
slice `[]T` is `Option (List T)` (`none` is the nil slice; when a slice grows
during decoding its new elements start from the zero value), `int64` is the
subtype of `Int` in the 64-bit range and a Go `string` is a list of bytes.
Documents are JSON value trees: their strings are Unicode text and their
number literals are integers, the only numbers the encoder of these types
emits.
-/

namespace v1alpha1

/-! ## JSON documents -/

/-- JSON value trees. An object keeps its members in document order. -/
inductive JSON where
  | null : JSON
  | bool (b : Bool) : JSON
  | num (n : Int) : JSON
  | str (s : String) : JSON
  | arr (xs : List JSON) : JSON
  | obj (kvs : List (String × JSON)) : JSON

/-- The members of a JSON object, in document order. -/
abbrev Members := List (String × JSON)

/-- Value of the first member named `k`, if the object has one. -/
def getKey (k : String) : Members → Option JSON
  | [] => none
  | (k', v) :: rest => if k' = k then some v else getKey k rest

/-- Value a document has under the key `k`: the document has to be an object
with a member of that name. -/
def JSON.lookup (d : JSON) (k : String) : Option JSON :=
  match d with
  | JSON.obj kvs => getKey k kvs
  | _ => none

/-! ## Go scalar types -/

/-- Range of the Go type `int64`. -/
def inInt64 (n : Int) : Prop := -9223372036854775808 ≤ n ∧ n ≤ 9223372036854775807

instance (n : Int) : Decidable (inInt64 n) := by
  unfold inInt64; exact inferInstance

/-- The Go type `int64`. -/
abbrev Int64 := { n : Int // inInt64 n }

/-- The zero value of `int64`. -/
def Int64.zero : Int64 := ⟨0, by decide⟩

/-- A Go slice: `none` is the nil slice, `some xs` a non-nil slice. -/
abbrev Slice (α : Type) := Option (List α)

/-- Go `len` of a slice: the nil slice has length zero. -/
def Slice.len {α : Type} : Slice α → Nat
  | none => 0
  | some xs => xs.length


/-! ## Go strings -/

/-- A byte. -/
abbrev Byte := Fin 256

/-- The byte of a number, truncated like a Go conversion to `byte`. -/
def byte (n : Nat) : Byte := ⟨n % 256, Nat.mod_lt n (by decide)⟩

/-- A Go `string`: any sequence of bytes, valid UTF-8 or not. -/
abbrev GoString := List Byte

/-- The rune `utf8.RuneError`, U+FFFD. -/
def RuneError : Nat := 0xFFFD

/-- Library function `utf8.DecodeRuneInString`: the first rune of the string
and its width in bytes; `(RuneError, 0)` for the empty string and
`(RuneError, 1)` when the string does not start with a well-formed encoding.
The masks and shifts of the Go code are written with `%` and `*`. -/
def DecodeRuneInString : GoString → Nat × Nat
  | [] => (RuneError, 0)
  | b0 :: rest =>
    if b0.val < 0x80 then (b0.val, 1)
    else if b0.val < 0xC2 then (RuneError, 1)
    else if b0.val ≤ 0xDF then
      match rest with
      | b1 :: _ =>
        if 0x80 ≤ b1.val ∧ b1.val ≤ 0xBF then (b0.val % 32 * 64 + b1.val % 64, 2)
        else (RuneError, 1)
      | [] => (RuneError, 1)
    else if b0.val ≤ 0xEF then
      match rest with
      | b1 :: b2 :: _ =>
        if (if b0.val = 0xE0 then 0xA0 else 0x80) ≤ b1.val
            ∧ b1.val ≤ (if b0.val = 0xED then 0x9F else 0xBF) then
          if 0x80 ≤ b2.val ∧ b2.val ≤ 0xBF then
            (b0.val % 16 * 4096 + b1.val % 64 * 64 + b2.val % 64, 3)
          else (RuneError, 1)
        else (RuneError, 1)
      | _ => (RuneError, 1)
    else if b0.val ≤ 0xF4 then
      match rest with
      | b1 :: b2 :: b3 :: _ =>
        if (if b0.val = 0xF0 then 0x90 else 0x80) ≤ b1.val
            ∧ b1.val ≤ (if b0.val = 0xF4 then 0x8F else 0xBF) then
          if 0x80 ≤ b2.val ∧ b2.val ≤ 0xBF then
            if 0x80 ≤ b3.val ∧ b3.val ≤ 0xBF then
              (b0.val % 8 * 262144 + b1.val % 64 * 4096 + b2.val % 64 * 64 + b3.val % 64, 4)
            else (RuneError, 1)
          else (RuneError, 1)
        else (RuneError, 1)
      | _ => (RuneError, 1)
    else (RuneError, 1)

/-- Library function `utf8.AppendRune` on an empty buffer: the UTF-8 encoding
of a rune; a surrogate or a rune beyond U+10FFFF is encoded as `RuneError`. -/
def EncodeRune (r : Nat) : GoString :=
  if r ≤ 0x7F then [byte r]
  else if r ≤ 0x7FF then [byte (0xC0 + r / 64), byte (0x80 + r % 64)]
  else if 0x10FFFF < r ∨ (0xD800 ≤ r ∧ r ≤ 0xDFFF) then [0xEF, 0xBF, 0xBD]
  else if r ≤ 0xFFFF then
    [byte (0xE0 + r / 4096), byte (0x80 + r / 64 % 64), byte (0x80 + r % 64)]
  else
    [byte (0xF0 + r / 262144), byte (0x80 + r / 4096 % 64), byte (0x80 + r / 64 % 64),
      byte (0x80 + r % 64)]

/-- The bytes a Go string gets when a JSON string is decoded into it: the
UTF-8 encoding of its characters. -/
def encodeRunes : List Char → GoString
  | [] => []
  | c :: cs => EncodeRune c.toNat ++ encodeRunes cs

/-- The Go string decoded from a JSON string. -/
def goBytes (s : String) : GoString := encodeRunes s.data

/-- The characters the JSON encoder writes for a Go string: it decodes rune
after rune and writes U+FFFD for every byte that starts no well-formed
encoding. The fuel bounds the number of runes; the length of the string is
always enough. -/
def coerceRunes : Nat → GoString → List Char
  | 0, _ => []
  | _ + 1, [] => []
  | fuel + 1, b :: bs =>
    Char.ofNat (DecodeRuneInString (b :: bs)).1
      :: coerceRunes fuel ((b :: bs).drop (DecodeRuneInString (b :: bs)).2)

/-- The JSON string the encoder emits for a Go string: the string coerced to
valid UTF-8. -/
def toValidUTF8 (s : GoString) : String := String.mk (coerceRunes s.length s)

/-- Library function `utf8.ValidString`, with fuel: every rune of the string
is well formed. -/
def validRunes : Nat → GoString → Bool
  | 0, s => s.isEmpty
  | _ + 1, [] => true
  | fuel + 1, b :: bs =>
    if (DecodeRuneInString (b :: bs)).1 = RuneError ∧ (DecodeRuneInString (b :: bs)).2 = 1
    then false
    else validRunes fuel ((b :: bs).drop (DecodeRuneInString (b :: bs)).2)

/-- The Go string is valid UTF-8. -/
def ValidString (s : GoString) : Bool := validRunes s.length s

/-- What a Go string is after encoding and decoding. -/
def roundString (s : GoString) : GoString := goBytes (toValidUTF8 s)


/-- A Go string literal: the UTF-8 bytes of its text. -/
def gostr (s : String) : GoString := goBytes s

/-! ## Matching keys with struct tags -/

/-- Library function `foldRune` of the JSON package, as far as it decides a
match with a tag of ASCII letters and digits: a lower-case ASCII letter folds
to its capital, the long s to `S` and the Kelvin sign to `K`; no other
character folds to an ASCII one. -/
def foldRune (c : Char) : Char :=
  if 97 ≤ c.toNat ∧ c.toNat ≤ 122 then Char.ofNat (c.toNat - 32)
  else if c.toNat = 0x17F then 'S'
  else if c.toNat = 0x212A then 'K'
  else c

/-- Library function `foldName`: the key with every character folded. -/
def foldName (s : String) : String := String.mk (s.data.map foldRune)

/-- The key `k` of a document selects the field tagged `tag`: the decoder
takes the field of the same name or, failing that, of the same folded name;
as no two tags of a struct here fold to the same name, that is the field whose
folded tag is the folded key. -/
def keyIs (tag k : String) : Prop := foldName k = foldName tag

instance (tag k : String) : Decidable (keyIs tag k) :=
  inferInstanceAs (Decidable (foldName k = foldName tag))

/-- No member of the object selects the field tagged `tag`. -/
def lacksKey (tag : String) (kvs : Members) : Prop := ∀ kv ∈ kvs, ¬ keyIs tag kv.1

instance (tag : String) (kvs : Members) : Decidable (lacksKey tag kvs) :=
  inferInstanceAs (Decidable (∀ kv ∈ kvs, ¬ keyIs tag kv.1))

/-- The object without the members that select the field tagged `tag`. -/
def dropKey (tag : String) (kvs : Members) : Members :=
  kvs.filter (fun kv => ¬ keyIs tag kv.1)

/-- The document without the members that select the field tagged `tag`. -/
def JSON.without (d : JSON) (tag : String) : JSON :=
  match d with
  | JSON.obj kvs => JSON.obj (dropKey tag kvs)
  | x => x

/-! ## The parameter struct -/

/-- VirtualMachineParameters are the configurable fields of a VirtualMachine.
Fields are listed in the order of the Go declaration. -/
structure VirtualMachineParameters where
  Virtualization : GoString
  ServerGroupId : Option Int64
  RootPassword : GoString
  Hostname : GoString
  DiskSpace : Int64
  RAM : Int64
  BurstableRAM : Option Int64
  SwapRAM : Option Int64
  Bandwidth : Int64
  UserId : Int64
  CPU : Option Int64
  CPUPercent : Option Int64
  CPUCores : Int64
  IPv4 : Option Int64
  IPInternal : Option Int64
  IPv6 : Option Int64
  Ipv6Subnet : Option Int64
  EnableVNC : Option Bool
  VNCPassword : Option GoString
  ShadowMemory : Option Int64
  ISO : Option GoString
  BootOrder : Option Int64
  EnableTuntap : Option Int64
  EnableIOPriority : Option Int64
  SuspendIfBandwidthExceeded : Option Bool
  OsReinstallLimit : Option Int64
  OSId : Int64
  MediaGroupId : Option GoString
  NIC : Option GoString
  SSHOptions : Option GoString
  SSHPublicKey : Option GoString
  SSHPrivateKey : Option Int64
  ExistingKeys : Option (Slice GoString)
  BIOS : Option GoString
  deriving DecidableEq

/-- The Go zero value `VirtualMachineParameters{}`: empty strings, zero
integers, nil pointers. It is the target a document is decoded into. -/
def VirtualMachineParameters.zero : VirtualMachineParameters where
  Virtualization := []
  ServerGroupId := none
  RootPassword := []
  Hostname := []
  DiskSpace := Int64.zero
  RAM := Int64.zero
  BurstableRAM := none
  SwapRAM := none
  Bandwidth := Int64.zero
  UserId := Int64.zero
  CPU := none
  CPUPercent := none
  CPUCores := Int64.zero
  IPv4 := none
  IPInternal := none
  IPv6 := none
  Ipv6Subnet := none
  EnableVNC := none
  VNCPassword := none
  ShadowMemory := none
  ISO := none
  BootOrder := none
  EnableTuntap := none
  EnableIOPriority := none
  SuspendIfBandwidthExceeded := none
  OsReinstallLimit := none
  OSId := Int64.zero
  MediaGroupId := none
  NIC := none
  SSHOptions := none
  SSHPublicKey := none
  SSHPrivateKey := none
  ExistingKeys := none
  BIOS := none

/-! ## Encoding -/

/-- Encoding of an `int64`. -/
def encInt64 (n : Int64) : JSON := JSON.num n.val

/-- Encoding of a `string`: the JSON string of its text, coerced to valid
UTF-8. -/
def encString (s : GoString) : JSON := JSON.str (toValidUTF8 s)

/-- Encoding of a `[]string`: the nil slice is `null`, any other an array. -/
def encStrings : Slice GoString → JSON
  | none => JSON.null
  | some xs => JSON.arr (xs.map encString)

/-- A pointer field tagged `omitempty`: no member when the pointer is nil,
otherwise one member carrying the encoding of the pointee. -/
def omitEmpty {α : Type} (k : String) (enc : α → JSON) : Option α → Members
  | none => []
  | some a => [(k, enc a)]

/-- The members of the encoding of `p`, in declaration order, under the keys
of the struct tags. -/
def VirtualMachineParameters.members (p : VirtualMachineParameters) : Members :=
  [("virtualization", encString p.Virtualization)]
  ++ (omitEmpty "serverGroupId" encInt64 p.ServerGroupId
  ++ ([("rootPassword", encString p.RootPassword)]
  ++ ([("hostname", encString p.Hostname)]
  ++ ([("diskSpace", encInt64 p.DiskSpace)]
  ++ ([("ram", encInt64 p.RAM)]
  ++ (omitEmpty "burstableRAM" encInt64 p.BurstableRAM
  ++ (omitEmpty "swapRAM" encInt64 p.SwapRAM
  ++ ([("bandwidth", encInt64 p.Bandwidth)]
  ++ ([("userId", encInt64 p.UserId)]
  ++ (omitEmpty "cpu" encInt64 p.CPU
  ++ (omitEmpty "cpuPercent" encInt64 p.CPUPercent
  ++ ([("cpuCores", encInt64 p.CPUCores)]
  ++ (omitEmpty "numIpv4" encInt64 p.IPv4
  ++ (omitEmpty "numInternalIps" encInt64 p.IPInternal
  ++ (omitEmpty "numIpv6" encInt64 p.IPv6
  ++ (omitEmpty "numIpv6Subnets" encInt64 p.Ipv6Subnet
  ++ (omitEmpty "enableVNC" JSON.bool p.EnableVNC
  ++ (omitEmpty "vncPassword" encString p.VNCPassword
  ++ (omitEmpty "shadowMemory" encInt64 p.ShadowMemory
  ++ (omitEmpty "iso" encString p.ISO
  ++ (omitEmpty "bootOrder" encInt64 p.BootOrder
  ++ (omitEmpty "enableTuntap" encInt64 p.EnableTuntap
  ++ (omitEmpty "enableIOPriority" encInt64 p.EnableIOPriority
  ++ (omitEmpty "suspendIfBandwidthExceeded" JSON.bool p.SuspendIfBandwidthExceeded
  ++ (omitEmpty "osReinstallLimit" encInt64 p.OsReinstallLimit
  ++ ([("osId", encInt64 p.OSId)]
  ++ (omitEmpty "mediaGroupId" encString p.MediaGroupId
  ++ (omitEmpty "nic" encString p.NIC
  ++ (omitEmpty "sshOptions" encString p.SSHOptions
  ++ (omitEmpty "sshPublicKey" encString p.SSHPublicKey
  ++ (omitEmpty "sshPrivateKey" encInt64 p.SSHPrivateKey
  ++ (omitEmpty "existingSSHKeys" encStrings p.ExistingKeys
  ++ omitEmpty "bios" encString p.BIOS))))))))))))))))))))))))))))))))

/-- The tagged encoding of `p`: a JSON object. -/
def VirtualMachineParameters.encode (p : VirtualMachineParameters) : JSON :=
  JSON.obj p.members

/-! ## Decoding -/

/-- Decode into a `string` holding `cur`: `null` leaves it as it is, a JSON
string replaces it by the UTF-8 bytes of its text, anything else is a type
error. -/
def decString (cur : GoString) : JSON → Option GoString
  | JSON.null => some cur
  | JSON.str s => some (goBytes s)
  | _ => none

/-- Decode into an `int64` field holding `cur`: `null` leaves the field as it
is, an integer in range replaces it, anything else is an error. -/
def decInt64 (cur : Int64) : JSON → Option Int64
  | JSON.null => some cur
  | JSON.num n => if h : inInt64 n then some ⟨n, h⟩ else none
  | _ => none

/-- Decode into a `*int64` field: `null` sets the pointer to nil. -/
def decPtrInt64 : JSON → Option (Option Int64)
  | JSON.null => some none
  | JSON.num n => if h : inInt64 n then some (some ⟨n, h⟩) else none
  | _ => none

/-- Decode into a `*bool` field: `null` sets the pointer to nil. -/
def decPtrBool : JSON → Option (Option Bool)
  | JSON.null => some none
  | JSON.bool b => some (some b)
  | _ => none

/-- Decode into a `*string` field: `null` sets the pointer to nil. -/
def decPtrString : JSON → Option (Option GoString)
  | JSON.null => some none
  | JSON.str s => some (some (goBytes s))
  | _ => none

/-- Decode the elements of a JSON array into a slice of strings that holds
`old`: element `i` is decoded into the old element `i`, or into a fresh empty
string when the slice was shorter, and the slice ends up with one element per
array element. -/
def decStringElems : List JSON → List GoString → Option (List GoString)
  | [], _ => some []
  | x :: rest, old =>
    match decString (old.headD []) x with
    | none => none
    | some s => (decStringElems rest old.tail).map (fun l => s :: l)

/-- Decode into a `*[]string` field holding `cur`: `null` sets the pointer to
nil; an array is decoded into the slice the pointer points at, or into a new
slice when the pointer is nil, and leaves a non-nil slice. -/
def decPtrStrings (cur : Option (Slice GoString)) : JSON → Option (Option (Slice GoString))
  | JSON.null => some none
  | JSON.arr xs =>
    (decStringElems xs ((cur.getD none).getD [])).map (fun l => some (some l))
  | _ => none

/-- Decode one object member into the struct: the member is matched against
the struct tags, decoded into its field, and ignored when no tag matches.
The result is `none` on a type error. -/
def decodeMember (p : VirtualMachineParameters) (k : String) (v : JSON) :
    Option VirtualMachineParameters :=
  if keyIs "virtualization" k then
    (decString p.Virtualization v).map (fun x => { p with Virtualization := x })
  else if keyIs "serverGroupId" k then
    (decPtrInt64 v).map (fun x => { p with ServerGroupId := x })
  else if keyIs "rootPassword" k then
    (decString p.RootPassword v).map (fun x => { p with RootPassword := x })
  else if keyIs "hostname" k then
    (decString p.Hostname v).map (fun x => { p with Hostname := x })
  else if keyIs "diskSpace" k then
    (decInt64 p.DiskSpace v).map (fun x => { p with DiskSpace := x })
  else if keyIs "ram" k then
    (decInt64 p.RAM v).map (fun x => { p with RAM := x })
  else if keyIs "burstableRAM" k then
    (decPtrInt64 v).map (fun x => { p with BurstableRAM := x })
  else if keyIs "swapRAM" k then
    (decPtrInt64 v).map (fun x => { p with SwapRAM := x })
  else if keyIs "bandwidth" k then
    (decInt64 p.Bandwidth v).map (fun x => { p with Bandwidth := x })
  else if keyIs "userId" k then
    (decInt64 p.UserId v).map (fun x => { p with UserId := x })
  else if keyIs "cpu" k then
    (decPtrInt64 v).map (fun x => { p with CPU := x })
  else if keyIs "cpuPercent" k then
    (decPtrInt64 v).map (fun x => { p with CPUPercent := x })
  else if keyIs "cpuCores" k then
    (decInt64 p.CPUCores v).map (fun x => { p with CPUCores := x })
  else if keyIs "numIpv4" k then
    (decPtrInt64 v).map (fun x => { p with IPv4 := x })
  else if keyIs "numInternalIps" k then
    (decPtrInt64 v).map (fun x => { p with IPInternal := x })
  else if keyIs "numIpv6" k then
    (decPtrInt64 v).map (fun x => { p with IPv6 := x })
  else if keyIs "numIpv6Subnets" k then
    (decPtrInt64 v).map (fun x => { p with Ipv6Subnet := x })
  else if keyIs "enableVNC" k then
    (decPtrBool v).map (fun x => { p with EnableVNC := x })
  else if keyIs "vncPassword" k then
    (decPtrString v).map (fun x => { p with VNCPassword := x })
  else if keyIs "shadowMemory" k then
    (decPtrInt64 v).map (fun x => { p with ShadowMemory := x })
  else if keyIs "iso" k then
    (decPtrString v).map (fun x => { p with ISO := x })
  else if keyIs "bootOrder" k then
    (decPtrInt64 v).map (fun x => { p with BootOrder := x })
  else if keyIs "enableTuntap" k then
    (decPtrInt64 v).map (fun x => { p with EnableTuntap := x })
  else if keyIs "enableIOPriority" k then
    (decPtrInt64 v).map (fun x => { p with EnableIOPriority := x })
  else if keyIs "suspendIfBandwidthExceeded" k then
    (decPtrBool v).map (fun x => { p with SuspendIfBandwidthExceeded := x })
  else if keyIs "osReinstallLimit" k then
    (decPtrInt64 v).map (fun x => { p with OsReinstallLimit := x })
  else if keyIs "osId" k then
    (decInt64 p.OSId v).map (fun x => { p with OSId := x })
  else if keyIs "mediaGroupId" k then
    (decPtrString v).map (fun x => { p with MediaGroupId := x })
  else if keyIs "nic" k then
    (decPtrString v).map (fun x => { p with NIC := x })
  else if keyIs "sshOptions" k then
    (decPtrString v).map (fun x => { p with SSHOptions := x })
  else if keyIs "sshPublicKey" k then
    (decPtrString v).map (fun x => { p with SSHPublicKey := x })
  else if keyIs "sshPrivateKey" k then
    (decPtrInt64 v).map (fun x => { p with SSHPrivateKey := x })
  else if keyIs "existingSSHKeys" k then
    (decPtrStrings p.ExistingKeys v).map (fun x => { p with ExistingKeys := x })
  else if keyIs "bios" k then
    (decPtrString v).map (fun x => { p with BIOS := x })
  else
    some p

/-- Decode the members of an object, in document order, into `p`. -/
def decodeMembers : Members → VirtualMachineParameters → Option VirtualMachineParameters
  | [], p => some p
  | (k, v) :: rest, p =>
    match decodeMember p k v with
    | none => none
    | some q => decodeMembers rest q

/-- Decode a document into `p`: an object is decoded member by member,
`null` leaves the target as it is, any other document is a type error. -/
def VirtualMachineParameters.decodeInto (p : VirtualMachineParameters) :
    JSON → Option VirtualMachineParameters
  | JSON.obj kvs => decodeMembers kvs p
  | JSON.null => some p
  | _ => none

/-- Decode a document into a fresh zero-value struct. `none` means the
document is rejected. -/
def VirtualMachineParameters.decode (d : JSON) : Option VirtualMachineParameters :=
  VirtualMachineParameters.zero.decodeInto d

/-! ## What the codec preserves -/

/-- What a set `existingSSHKeys` pointer is after encoding and decoding: a
pointer at the nil slice is emitted as `null`, and `null` decodes to the nil
pointer; the strings of a non-nil slice are coerced to valid UTF-8. -/
def keysAfterRoundTrip : Option (Slice GoString) → Option (Slice GoString)
  | none => none
  | some none => none
  | some (some xs) => some (some (xs.map roundString))

/-- What a struct is after encoding and decoding. -/
def VirtualMachineParameters.afterRoundTrip (p : VirtualMachineParameters) :
    VirtualMachineParameters :=
  { p with
    Virtualization := roundString p.Virtualization
    RootPassword := roundString p.RootPassword
    Hostname := roundString p.Hostname
    VNCPassword := p.VNCPassword.map roundString
    ISO := p.ISO.map roundString
    MediaGroupId := p.MediaGroupId.map roundString
    NIC := p.NIC.map roundString
    SSHOptions := p.SSHOptions.map roundString
    SSHPublicKey := p.SSHPublicKey.map roundString
    ExistingKeys := keysAfterRoundTrip p.ExistingKeys
    BIOS := p.BIOS.map roundString }

/-- A set string is valid UTF-8. -/
def validOpt : Option GoString → Bool
  | none => true
  | some s => ValidString s

/-- The strings of a set, non-nil `existingSSHKeys` are valid UTF-8. -/
def validKeys : Option (Slice GoString) → Bool
  | some (some xs) => xs.all ValidString
  | _ => true

/-- Every string the struct holds is valid UTF-8. -/
def VirtualMachineParameters.ValidStrings (p : VirtualMachineParameters) : Prop :=
  ValidString p.Virtualization = true ∧
  ValidString p.RootPassword = true ∧
  ValidString p.Hostname = true ∧
  validOpt p.VNCPassword = true ∧
  validOpt p.ISO = true ∧
  validOpt p.MediaGroupId = true ∧
  validOpt p.NIC = true ∧
  validOpt p.SSHOptions = true ∧
  validOpt p.SSHPublicKey = true ∧
  validKeys p.ExistingKeys = true ∧
  validOpt p.BIOS = true

instance (p : VirtualMachineParameters) : Decidable p.ValidStrings := by
  unfold VirtualMachineParameters.ValidStrings; exact inferInstance

/-! ## The list type -/

/-- The embedded `metav1.TypeMeta`: both fields are tagged `omitempty`. -/
structure TypeMeta where
  Kind : GoString
  APIVersion : GoString
  deriving DecidableEq

/-- The embedded `metav1.ListMeta`, stored under the key `metadata`; all four
fields are tagged `omitempty`. -/
structure ListMeta where
  SelfLink : GoString
  ResourceVersion : GoString
  Continue : GoString
  RemainingItemCount : Option Int64
  deriving DecidableEq

/-- VirtualMachineList contains a list of VirtualMachine. The item struct
embeds envelope types of other packages (object metadata, resource spec and
status), so the item type and its codec are parameters here. -/
structure VirtualMachineList (VirtualMachine : Type) where
  TypeMeta : TypeMeta
  ListMeta : ListMeta
  Items : Slice VirtualMachine

/-- The Go zero value `VirtualMachineList{}`: its `Items` is the nil slice. -/
def VirtualMachineList.zero {VirtualMachine : Type} : VirtualMachineList VirtualMachine where
  TypeMeta := { Kind := [], APIVersion := [] }
  ListMeta := { SelfLink := [], ResourceVersion := [], Continue := [], RemainingItemCount := none }
  Items := none

/-- A `string` field tagged `omitempty`: no member when the string is empty. -/
def omitEmptyString (k : String) (s : GoString) : Members :=
  if s.length = 0 then [] else [(k, encString s)]

/-- Encoding of a slice: the nil slice is `null`, any other an array. -/
def encSlice {α : Type} (enc : α → JSON) : Slice α → JSON
  | none => JSON.null
  | some xs => JSON.arr (xs.map enc)

/-- The members of an encoded `ListMeta`. -/
def ListMeta.members (m : ListMeta) : Members :=
  omitEmptyString "selfLink" m.SelfLink
  ++ (omitEmptyString "resourceVersion" m.ResourceVersion
  ++ (omitEmptyString "continue" m.Continue
  ++ omitEmpty "remainingItemCount" encInt64 m.RemainingItemCount))

/-- The members of an encoded list: the promoted `kind` and `apiVersion`,
then `metadata` (a struct, so never omitted) and `items` (no `omitempty`). -/
def VirtualMachineList.members {VirtualMachine : Type} (enc : VirtualMachine → JSON)
    (l : VirtualMachineList VirtualMachine) : Members :=
  omitEmptyString "kind" l.TypeMeta.Kind
  ++ (omitEmptyString "apiVersion" l.TypeMeta.APIVersion
  ++ ([("metadata", JSON.obj l.ListMeta.members)]
  ++ [("items", encSlice enc l.Items)]))

/-- The encoding of a list. -/
def VirtualMachineList.encode {VirtualMachine : Type} (enc : VirtualMachine → JSON)
    (l : VirtualMachineList VirtualMachine) : JSON :=
  JSON.obj (l.members enc)

/-- Decode one member into a `ListMeta`. -/
def ListMeta.decodeMember (m : ListMeta) (k : String) (v : JSON) : Option ListMeta :=
  if keyIs "selfLink" k then
    (decString m.SelfLink v).map (fun x => { m with SelfLink := x })
  else if keyIs "resourceVersion" k then
    (decString m.ResourceVersion v).map (fun x => { m with ResourceVersion := x })
  else if keyIs "continue" k then
    (decString m.Continue v).map (fun x => { m with Continue := x })
  else if keyIs "remainingItemCount" k then
    (decPtrInt64 v).map (fun x => { m with RemainingItemCount := x })
  else
    some m

/-- Decode the members of an object into a `ListMeta`. -/
def ListMeta.decodeMembers : Members → ListMeta → Option ListMeta
  | [], m => some m
  | (k, v) :: rest, m =>
    match m.decodeMember k v with
    | none => none
    | some m' => ListMeta.decodeMembers rest m'

/-- Decode a document into a `ListMeta` struct field. -/
def ListMeta.decodeInto (m : ListMeta) : JSON → Option ListMeta
  | JSON.obj kvs => ListMeta.decodeMembers kvs m
  | JSON.null => some m
  | _ => none

/-- Decode the elements of a JSON array into a slice that holds `old`:
element `i` is decoded into the old element `i`, or into a fresh zero value
when the slice was shorter; `dec cur x` decodes the document `x` into an
element holding `cur`. -/
def decElems {α : Type} (dec : α → JSON → Option α) (zero : α) :
    List JSON → List α → Option (List α)
  | [], _ => some []
  | x :: rest, old =>
    match dec (old.headD zero) x with
    | none => none
    | some a => (decElems dec zero rest old.tail).map (fun l => a :: l)

/-- Decode into a slice field holding `cur`: `null` makes it the nil slice,
an array is decoded into the elements the slice has and leaves a non-nil slice
with one element per array element. -/
def decSlice {α : Type} (dec : α → JSON → Option α) (zero : α) (cur : Slice α) :
    JSON → Option (Slice α)
  | JSON.null => some none
  | JSON.arr xs => (decElems dec zero xs (cur.getD [])).map some
  | _ => none

/-- Decode one member into a list struct. -/
def VirtualMachineList.decodeMember {VirtualMachine : Type}
    (dec : VirtualMachine → JSON → Option VirtualMachine) (zero : VirtualMachine)
    (l : VirtualMachineList VirtualMachine)
    (k : String) (v : JSON) : Option (VirtualMachineList VirtualMachine) :=
  if keyIs "kind" k then
    (decString l.TypeMeta.Kind v).map (fun x => { l with TypeMeta := { l.TypeMeta with Kind := x } })
  else if keyIs "apiVersion" k then
    (decString l.TypeMeta.APIVersion v).map
      (fun x => { l with TypeMeta := { l.TypeMeta with APIVersion := x } })
  else if keyIs "metadata" k then
    (l.ListMeta.decodeInto v).map (fun x => { l with ListMeta := x })
  else if keyIs "items" k then
    (decSlice dec zero l.Items v).map (fun x => { l with Items := x })
  else
    some l

/-- Decode the members of an object into a list struct. -/
def VirtualMachineList.decodeMembers {VirtualMachine : Type}
    (dec : VirtualMachine → JSON → Option VirtualMachine) (zero : VirtualMachine) :
    Members → VirtualMachineList VirtualMachine → Option (VirtualMachineList VirtualMachine)
  | [], l => some l
  | (k, v) :: rest, l =>
    match l.decodeMember dec zero k v with
    | none => none
    | some l' => VirtualMachineList.decodeMembers dec zero rest l'

/-- Decode a document into a fresh zero-value list; `dec cur x` decodes the
document `x` into an item holding `cur` and `zero` is the zero-value item. -/
def VirtualMachineList.decode {VirtualMachine : Type}
    (dec : VirtualMachine → JSON → Option VirtualMachine) (zero : VirtualMachine) :
    JSON → Option (VirtualMachineList VirtualMachine)
  | JSON.obj kvs => VirtualMachineList.decodeMembers dec zero kvs VirtualMachineList.zero
  | JSON.null => some VirtualMachineList.zero
  | _ => none

/-! ## Type identity -/

/-- Library type `schema.GroupKind`. -/
structure GroupKind where
  Group : String
  Kind : String
  deriving DecidableEq

/-- Library type `schema.GroupVersion`. -/
structure GroupVersion where
  Group : String
  Version : String
  deriving DecidableEq

/-- Library type `schema.GroupVersionKind`. -/
structure GroupVersionKind where
  Group : String
  Version : String
  Kind : String
  deriving DecidableEq

/-- Library method `GroupKind.String`: the kind alone for the empty group,
otherwise kind, a dot and the group. -/
def GroupKind.String (gk : GroupKind) : String :=
  if gk.Group.length = 0 then gk.Kind else gk.Kind ++ "." ++ gk.Group

/-- Library method `GroupVersion.WithKind`. -/
def GroupVersion.WithKind (gv : GroupVersion) (kind : String) : GroupVersionKind :=
  { Group := gv.Group, Version := gv.Version, Kind := kind }

/-- Library method `GroupVersion.String`: group, a slash and the version, or
the version alone for the empty group. -/
def GroupVersion.String (gv : GroupVersion) : String :=
  if gv.Group.length > 0 then gv.Group ++ "/" ++ gv.Version else gv.Version

/-- A Go struct type as reflection sees it: the package name and the name of
the type. -/
structure GoType where
  Pkg : String
  Name : String
  deriving DecidableEq

/-- The struct type `VirtualMachine` of this package. -/
def VirtualMachineType : GoType := { Pkg := "v1alpha1", Name := "VirtualMachine" }

/-- The struct type `VirtualMachineList` of this package. -/
def VirtualMachineListType : GoType := { Pkg := "v1alpha1", Name := "VirtualMachineList" }

/-- The variable `VirtualMachineKind`: the reflected name of the struct. -/
def VirtualMachineKind : String := VirtualMachineType.Name

/-- The variable `VirtualMachineGroupKind`; `Group` is the package constant
declared next to the scheme group version. -/
def VirtualMachineGroupKind (Group : String) : String :=
  GroupKind.String { Group := Group, Kind := VirtualMachineKind }

/-- The variable `VirtualMachineKindAPIVersion`. -/
def VirtualMachineKindAPIVersion (SchemeGroupVersion : GroupVersion) : String :=
  VirtualMachineKind ++ "." ++ SchemeGroupVersion.String

/-- The variable `VirtualMachineGroupVersionKind`. -/
def VirtualMachineGroupVersionKind (SchemeGroupVersion : GroupVersion) : GroupVersionKind :=
  SchemeGroupVersion.WithKind VirtualMachineKind

/-! ## Registration -/

/-- The two tables of a `runtime.Scheme` that registration of a type writes:
the type of each group-version-kind and the group-version-kinds of each type.
Go maps are modelled as functions. -/
structure Scheme where
  gvkToType : GroupVersionKind → Option GoType
  typeToGVK : GoType → List GroupVersionKind

/-- The empty scheme returned by `runtime.NewScheme`. -/
def NewScheme : Scheme where
  gvkToType := fun _ => none
  typeToGVK := fun _ => []

/-- Library method `Scheme.AddKnownTypeWithName`. It panics (`none`) on an
empty version and on a kind already registered with a different type;
otherwise it records the type under the kind and, unless already listed, the
kind under the type. -/
def Scheme.AddKnownTypeWithName (s : Scheme) (gvk : GroupVersionKind) (t : GoType) :
    Option Scheme :=
  if gvk.Version.length = 0 then none
  else
    match s.gvkToType gvk with
    | some oldT =>
      if oldT ≠ t then none
      else
        let s1 : Scheme := { s with gvkToType := Function.update s.gvkToType gvk (some t) }
        if gvk ∈ s.typeToGVK t then some s1
        else some { s1 with typeToGVK := Function.update s.typeToGVK t (s.typeToGVK t ++ [gvk]) }
    | none =>
      let s1 : Scheme := { s with gvkToType := Function.update s.gvkToType gvk (some t) }
      if gvk ∈ s.typeToGVK t then some s1
      else some { s1 with typeToGVK := Function.update s.typeToGVK t (s.typeToGVK t ++ [gvk]) }

/-- The scheme knows type `t` under kind `gvk`: the kind maps to the type
and the type lists the kind. -/
def Scheme.Knows (s : Scheme) (gvk : GroupVersionKind) (t : GoType) : Prop :=
  gvk.Version.length ≠ 0 ∧ s.gvkToType gvk = some t ∧ gvk ∈ s.typeToGVK t

/-- A run of `AddKnownTypeWithName` calls, in order; the first panic ends it. -/
def Scheme.addAll : List (GroupVersionKind × GoType) → Scheme → Option Scheme
  | [], s => some s
  | (gvk, t) :: rest, s =>
    match s.AddKnownTypeWithName gvk t with
    | none => none
    | some s1 => Scheme.addAll rest s1

/-- Library method `Scheme.AddKnownTypes`: every type is added under the
group version with its reflected name as kind. -/
def Scheme.AddKnownTypes (s : Scheme) (gv : GroupVersion) (types : List GoType) :
    Option Scheme :=
  Scheme.addAll (types.map (fun t => (gv.WithKind t.Name, t))) s

/-- The scheme builder of controller-runtime: the group version and the
registered functions, each represented by the objects it was registered
with. -/
structure Builder where
  GroupVersion : GroupVersion
  SchemeBuilder : List (List GoType)

/-- Library method `Builder.Register`: appends one function that adds the
given objects. -/
def Builder.Register (bld : Builder) (objects : List GoType) : Builder :=
  { bld with SchemeBuilder := bld.SchemeBuilder ++ [objects] }

/-- The function `Builder.Register` stores: the objects are added as known
types of the group version, then `metav1.AddToGroupVersion` adds the kinds of
the meta package; `metaKinds` is the list of kinds and types that library
function adds for a group version. -/
def registered (metaKinds : GroupVersion → List (GroupVersionKind × GoType))
    (gv : GroupVersion) (objects : List GoType) (s : Scheme) : Option Scheme :=
  match s.AddKnownTypes gv objects with
  | none => none
  | some s1 => Scheme.addAll (metaKinds gv) s1

/-- All `AddKnownTypeWithName` calls the registered functions make, in order. -/
def allCalls (metaKinds : GroupVersion → List (GroupVersionKind × GoType))
    (gv : GroupVersion) : List (List GoType) → List (GroupVersionKind × GoType)
  | [] => []
  | objects :: rest =>
    (objects.map (fun t => (gv.WithKind t.Name, t)) ++ metaKinds gv)
      ++ allCalls metaKinds gv rest

/-- Run registered functions in order against a scheme. -/
def runAll (metaKinds : GroupVersion → List (GroupVersionKind × GoType))
    (gv : GroupVersion) : List (List GoType) → Scheme → Option Scheme
  | [], s => some s
  | objects :: rest, s =>
    match registered metaKinds gv objects s with
    | none => none
    | some s1 => runAll metaKinds gv rest s1

/-- Library method `Builder.AddToScheme`: applies every registered function
to the scheme. -/
def Builder.AddToScheme
    (metaKinds : v1alpha1.GroupVersion → List (GroupVersionKind × GoType))
    (bld : Builder) (s : Scheme) : Option Scheme :=
  runAll metaKinds bld.GroupVersion bld.SchemeBuilder s

/-- The package `init` function: one `Register` call with the two types. -/
def init (SchemeBuilder : Builder) : Builder :=
  SchemeBuilder.Register [VirtualMachineType, VirtualMachineListType]

/-! ## Example values -/

/-- The parameters of the scenario: only the nine required fields are given. -/
def kvmExample : VirtualMachineParameters :=
  { VirtualMachineParameters.zero with
    Virtualization := gostr "kvm"
    RootPassword := gostr "x"
    Hostname := gostr "vm1"
    DiskSpace := ⟨20, by decide⟩
    RAM := ⟨1024, by decide⟩
    Bandwidth := ⟨1000, by decide⟩
    UserId := ⟨7, by decide⟩
    CPUCores := ⟨2, by decide⟩
    OSId := ⟨101, by decide⟩ }

/-- The scenario parameters with `existingSSHKeys` pointing at the nil slice. -/
def nilKeysExample : VirtualMachineParameters :=
  { kvmExample with ExistingKeys := some none }

/-- The scenario parameters with a hostname that is not valid UTF-8: the
bytes `a`, 0xFF, `b`. -/
def badHostExample : VirtualMachineParameters :=
  { kvmExample with Hostname := [0x61, 0xFF, 0x62] }

/-- The scenario parameters with a VNC password that is not valid UTF-8: the
single byte 0xFF. -/
def badPasswordExample : VirtualMachineParameters :=
  { kvmExample with VNCPassword := some [0xFF] }

/-- The text `a`, U+FFFD, `b`. -/
def replacedText : String := String.mk ['a', Char.ofNat 0xFFFD, 'b']

/-- The scenario parameters asking for existing SSH keys but giving an empty
list of them. -/
def useKeysExample : VirtualMachineParameters :=
  { kvmExample with SSHOptions := some (gostr "use_ssh_keys"), ExistingKeys := some (some []) }

/-- The scenario parameters asking for existing SSH keys and leaving
`existingSSHKeys` unset. -/
def useKeysUnsetExample : VirtualMachineParameters :=
  { kvmExample with SSHOptions := some (gostr "use_ssh_keys") }

/-- The scenario parameters with a `bios` outside `seabios` and `uefi`. -/
def biosExample : VirtualMachineParameters :=
  { kvmExample with BIOS := some (gostr "coreboot") }

/-- A group version used in examples. -/
def exampleGroupVersion : GroupVersion :=
  { Group := "compute.virtono.crossplane.io", Version := "v1alpha1" }

/-- The zero-value list, with items that carry only the parameters. -/
def zeroListExample : VirtualMachineList VirtualMachineParameters :=
  VirtualMachineList.zero

/-- A list whose items are a non-nil slice of length zero. -/
def emptyListExample : VirtualMachineList VirtualMachineParameters :=
  { zeroListExample with Items := some [] }

/-- A document that gives the hostname and nothing else. -/
def hostnameOnlyDoc : Members := [("hostname", JSON.str "vm1")]

/-- The scheme the registration of this package yields from the empty
scheme, when the meta package adds no kinds of its own. -/
def exampleScheme : Scheme :=
  ((init { GroupVersion := exampleGroupVersion, SchemeBuilder := [] }).AddToScheme
    (fun _ => []) NewScheme).getD NewScheme

/-! ## Decoding one member, key by key -/

theorem decodeMember_virtualization (p : VirtualMachineParameters) (v : JSON) :
    decodeMember p "virtualization" v = (decString p.Virtualization v).map (fun x => { p with Virtualization := x }) := rfl

theorem decodeMember_serverGroupId (p : VirtualMachineParameters) (v : JSON) :
    decodeMember p "serverGroupId" v = (decPtrInt64 v).map (fun x => { p with ServerGroupId := x }) := rfl

theorem decodeMember_rootPassword (p : VirtualMachineParameters) (v : JSON) :
    decodeMember p "rootPassword" v = (decString p.RootPassword v).map (fun x => { p with RootPassword := x }) := rfl

theorem decodeMember_hostname (p : VirtualMachineParameters) (v : JSON) :
    decodeMember p "hostname" v = (decString p.Hostname v).map (fun x => { p with Hostname := x }) := rfl

theorem decodeMember_diskSpace (p : VirtualMachineParameters) (v : JSON) :
    decodeMember p "diskSpace" v = (decInt64 p.DiskSpace v).map (fun x => { p with DiskSpace := x }) := rfl

theorem decodeMember_ram (p : VirtualMachineParameters) (v : JSON) :
    decodeMember p "ram" v = (decInt64 p.RAM v).map (fun x => { p with RAM := x }) := rfl

theorem decodeMember_burstableRAM (p : VirtualMachineParameters) (v : JSON) :
    decodeMember p "burstableRAM" v = (decPtrInt64 v).map (fun x => { p with BurstableRAM := x }) := rfl

theorem decodeMember_swapRAM (p : VirtualMachineParameters) (v : JSON) :
    decodeMember p "swapRAM" v = (decPtrInt64 v).map (fun x => { p with SwapRAM := x }) := rfl

theorem decodeMember_bandwidth (p : VirtualMachineParameters) (v : JSON) :
    decodeMember p "bandwidth" v = (decInt64 p.Bandwidth v).map (fun x => { p with Bandwidth := x }) := rfl

theorem decodeMember_userId (p : VirtualMachineParameters) (v : JSON) :
    decodeMember p "userId" v = (decInt64 p.UserId v).map (fun x => { p with UserId := x }) := rfl

theorem decodeMember_cpu (p : VirtualMachineParameters) (v : JSON) :
    decodeMember p "cpu" v = (decPtrInt64 v).map (fun x => { p with CPU := x }) := rfl

theorem decodeMember_cpuPercent (p : VirtualMachineParameters) (v : JSON) :
    decodeMember p "cpuPercent" v = (decPtrInt64 v).map (fun x => { p with CPUPercent := x }) := rfl

theorem decodeMember_cpuCores (p : VirtualMachineParameters) (v : JSON) :
    decodeMember p "cpuCores" v = (decInt64 p.CPUCores v).map (fun x => { p with CPUCores := x }) := rfl

theorem decodeMember_numIpv4 (p : VirtualMachineParameters) (v : JSON) :
    decodeMember p "numIpv4" v = (decPtrInt64 v).map (fun x => { p with IPv4 := x }) := rfl

theorem decodeMember_numInternalIps (p : VirtualMachineParameters) (v : JSON) :
    decodeMember p "numInternalIps" v = (decPtrInt64 v).map (fun x => { p with IPInternal := x }) := rfl

theorem decodeMember_numIpv6 (p : VirtualMachineParameters) (v : JSON) :
    decodeMember p "numIpv6" v = (decPtrInt64 v).map (fun x => { p with IPv6 := x }) := rfl

theorem decodeMember_numIpv6Subnets (p : VirtualMachineParameters) (v : JSON) :
    decodeMember p "numIpv6Subnets" v = (decPtrInt64 v).map (fun x => { p with Ipv6Subnet := x }) := rfl

theorem decodeMember_enableVNC (p : VirtualMachineParameters) (v : JSON) :
    decodeMember p "enableVNC" v = (decPtrBool v).map (fun x => { p with EnableVNC := x }) := rfl

theorem decodeMember_vncPassword (p : VirtualMachineParameters) (v : JSON) :
    decodeMember p "vncPassword" v = (decPtrString v).map (fun x => { p with VNCPassword := x }) := rfl

theorem decodeMember_shadowMemory (p : VirtualMachineParameters) (v : JSON) :
    decodeMember p "shadowMemory" v = (decPtrInt64 v).map (fun x => { p with ShadowMemory := x }) := rfl

theorem decodeMember_iso (p : VirtualMachineParameters) (v : JSON) :
    decodeMember p "iso" v = (decPtrString v).map (fun x => { p with ISO := x }) := rfl

theorem decodeMember_bootOrder (p : VirtualMachineParameters) (v : JSON) :
    decodeMember p "bootOrder" v = (decPtrInt64 v).map (fun x => { p with BootOrder := x }) := rfl

theorem decodeMember_enableTuntap (p : VirtualMachineParameters) (v : JSON) :
    decodeMember p "enableTuntap" v = (decPtrInt64 v).map (fun x => { p with EnableTuntap := x }) := rfl

theorem decodeMember_enableIOPriority (p : VirtualMachineParameters) (v : JSON) :
    decodeMember p "enableIOPriority" v = (decPtrInt64 v).map (fun x => { p with EnableIOPriority := x }) := rfl

theorem decodeMember_suspendIfBandwidthExceeded (p : VirtualMachineParameters) (v : JSON) :
    decodeMember p "suspendIfBandwidthExceeded" v = (decPtrBool v).map (fun x => { p with SuspendIfBandwidthExceeded := x }) := rfl

theorem decodeMember_osReinstallLimit (p : VirtualMachineParameters) (v : JSON) :
    decodeMember p "osReinstallLimit" v = (decPtrInt64 v).map (fun x => { p with OsReinstallLimit := x }) := rfl

theorem decodeMember_osId (p : VirtualMachineParameters) (v : JSON) :
    decodeMember p "osId" v = (decInt64 p.OSId v).map (fun x => { p with OSId := x }) := rfl

theorem decodeMember_mediaGroupId (p : VirtualMachineParameters) (v : JSON) :
    decodeMember p "mediaGroupId" v = (decPtrString v).map (fun x => { p with MediaGroupId := x }) := rfl

theorem decodeMember_nic (p : VirtualMachineParameters) (v : JSON) :
    decodeMember p "nic" v = (decPtrString v).map (fun x => { p with NIC := x }) := rfl

theorem decodeMember_sshOptions (p : VirtualMachineParameters) (v : JSON) :
    decodeMember p "sshOptions" v = (decPtrString v).map (fun x => { p with SSHOptions := x }) := rfl

theorem decodeMember_sshPublicKey (p : VirtualMachineParameters) (v : JSON) :
    decodeMember p "sshPublicKey" v = (decPtrString v).map (fun x => { p with SSHPublicKey := x }) := rfl

theorem decodeMember_sshPrivateKey (p : VirtualMachineParameters) (v : JSON) :
    decodeMember p "sshPrivateKey" v = (decPtrInt64 v).map (fun x => { p with SSHPrivateKey := x }) := rfl

theorem decodeMember_existingSSHKeys (p : VirtualMachineParameters) (v : JSON) :
    decodeMember p "existingSSHKeys" v = (decPtrStrings p.ExistingKeys v).map (fun x => { p with ExistingKeys := x }) := rfl

theorem decodeMember_bios (p : VirtualMachineParameters) (v : JSON) :
    decodeMember p "bios" v = (decPtrString v).map (fun x => { p with BIOS := x }) := rfl
/-! ## Valid UTF-8 survives the string codec -/

theorem toNat_ofNat (r : Nat) (h : r < 0xD800 ∨ (0xDFFF < r ∧ r < 0x110000)) :
    (Char.ofNat r).toNat = r := by
  have hv : r.isValidChar := h
  have hlt : r < 4294967296 := by rcases h with h | h <;> omega
  simp [Char.ofNat, hv, Char.ofNatAux, Char.toNat, UInt32.toNat, Nat.mod_eq_of_lt hlt]

theorem byte_eq (n : Nat) (b : Byte) (h : n = b.val) : byte n = b := by
  apply Fin.ext
  have := b.isLt
  simp only [byte]
  omega

set_option maxHeartbeats 2000000 in
theorem decode_step_aux (b : Byte) (bs : GoString) (r n : Nat)
    (hD : DecodeRuneInString (b :: bs) = (r, n)) (h : ¬ (r = RuneError ∧ n = 1)) :
    EncodeRune (Char.ofNat r).toNat ++ (b :: bs).drop n = b :: bs
    ∧ ((b :: bs).drop n).length ≤ bs.length := by
  have hb := b.isLt
  rcases bs with _ | ⟨b1, _ | ⟨b2, _ | ⟨b3, bs⟩⟩⟩
  all_goals
    rw [DecodeRuneInString] at hD
    try dsimp only at hD
    split_ifs at hD
    all_goals
      rw [Prod.mk.injEq] at hD
      obtain ⟨hr, hn⟩ := hD
      subst hr hn
      first
      | (exfalso; exact h ⟨rfl, rfl⟩)
      | (refine ⟨?_, by simp <;> omega⟩
         rw [toNat_ofNat _ (by omega)]
         simp only [EncodeRune]
         split_ifs
         all_goals first
           | omega
           | (simp only [List.cons_append, List.nil_append, List.drop, List.cons.injEq,
                and_true]
              repeat' (first | apply And.intro | (apply byte_eq; omega))))

theorem decode_step (b : Byte) (bs : GoString)
    (h : ¬ ((DecodeRuneInString (b :: bs)).1 = RuneError
      ∧ (DecodeRuneInString (b :: bs)).2 = 1)) :
    EncodeRune (Char.ofNat (DecodeRuneInString (b :: bs)).1).toNat
        ++ (b :: bs).drop (DecodeRuneInString (b :: bs)).2 = b :: bs
    ∧ ((b :: bs).drop (DecodeRuneInString (b :: bs)).2).length ≤ bs.length :=
  decode_step_aux b bs _ _ rfl h

theorem encodeRunes_coerceRunes (fuel : Nat) (s : GoString) (hlen : s.length ≤ fuel)
    (hv : validRunes fuel s = true) : encodeRunes (coerceRunes fuel s) = s := by
  induction fuel generalizing s with
  | zero =>
    have hs : s = [] := List.length_eq_zero.mp (Nat.le_zero.mp hlen)
    subst hs
    rfl
  | succ fuel ih =>
    cases s with
    | nil => rfl
    | cons b bs =>
      simp only [validRunes] at hv
      split_ifs at hv with hc
      obtain ⟨h1, h2⟩ := decode_step b bs hc
      have hl : ((b :: bs).drop (DecodeRuneInString (b :: bs)).2).length ≤ fuel := by
        have : bs.length + 1 ≤ fuel + 1 := hlen
        omega
      simp only [coerceRunes, encodeRunes]
      rw [ih _ hl hv]
      exact h1

/-- A string that is valid UTF-8 is decoded back from its encoding. -/
theorem roundString_of_valid (s : GoString) (h : ValidString s = true) :
    roundString s = s :=
  encodeRunes_coerceRunes s.length s (Nat.le_refl _) h

theorem map_roundString_of_valid (xs : List GoString) (h : xs.all ValidString = true) :
    xs.map roundString = xs := by
  induction xs with
  | nil => rfl
  | cons x xs ih =>
    simp only [List.all_cons, Bool.and_eq_true] at h
    simp [roundString_of_valid x h.1, ih h.2]

theorem optMap_roundString_of_valid (o : Option GoString) (h : validOpt o = true) :
    o.map roundString = o := by
  cases o with
  | none => rfl
  | some s => simp [roundString_of_valid s h]

/-! ## Decoders undo encoders -/

theorem decInt64_enc (c a : Int64) : decInt64 c (encInt64 a) = some a := by
  simp [decInt64, encInt64, a.property]

theorem decPtrInt64_enc (a : Int64) : decPtrInt64 (encInt64 a) = some (some a) := by
  simp [decPtrInt64, encInt64, a.property]

theorem decString_enc (c s : GoString) : decString c (encString s) = some (roundString s) :=
  rfl

theorem decPtrString_enc (s : GoString) :
    decPtrString (encString s) = some (some (roundString s)) := rfl

theorem decStringElems_map (l : List GoString) :
    decStringElems (l.map encString) [] = some (l.map roundString) := by
  induction l with
  | nil => rfl
  | cons s l ih => simp [decStringElems, decString_enc, ih]

theorem decPtrStrings_enc (a : Slice GoString) :
    decPtrStrings none (encStrings a) = some (keysAfterRoundTrip (some a)) := by
  cases a with
  | none => rfl
  | some l => simp [decPtrStrings, encStrings, decStringElems_map, keysAfterRoundTrip]

/-! ## Decoding the encoding, one field at a time -/

theorem decodeMembers_append (a b : Members) (s : VirtualMachineParameters) :
    decodeMembers (a ++ b) s = (decodeMembers a s).bind (decodeMembers b) := by
  induction a generalizing s with
  | nil => rfl
  | cons kv a ih =>
    obtain ⟨k, v⟩ := kv
    simp only [List.cons_append, decodeMembers]
    cases decodeMember s k v with
    | none => rfl
    | some q => exact ih q

theorem step_req (k : String) (v : JSON) (rest : Members)
    (s t : VirtualMachineParameters) (h : decodeMember s k v = some t) :
    decodeMembers ([(k, v)] ++ rest) s = decodeMembers rest t := by
  simp [decodeMembers, h]

theorem step_opt {α : Type} (k : String) (enc : α → JSON)
    (set : VirtualMachineParameters → Option α → VirtualMachineParameters)
    (norm : Option α → Option α) (o : Option α) (rest : Members)
    (s : VirtualMachineParameters)
    (hnone : set s (norm none) = s)
    (hdec : ∀ a, decodeMember s k (enc a) = some (set s (norm (some a)))) :
    decodeMembers (omitEmpty k enc o ++ rest) s = decodeMembers rest (set s (norm o)) := by
  cases o with
  | none => simp [omitEmpty, hnone]
  | some a => simp [omitEmpty, decodeMembers, hdec]

theorem step_virtualization (x : GoString) (rest : Members) (s : VirtualMachineParameters) :
    decodeMembers ([("virtualization", encString x)] ++ rest) s
      = decodeMembers rest { s with Virtualization := roundString x } :=
  step_req _ _ rest s _ (by simp [decodeMember_virtualization, decString_enc])

theorem step_serverGroupId (o : Option Int64) (rest : Members)
    (s : VirtualMachineParameters) (h : s.ServerGroupId = none) :
    decodeMembers (omitEmpty "serverGroupId" encInt64 o ++ rest) s
      = decodeMembers rest { s with ServerGroupId := o } :=
  step_opt "serverGroupId" encInt64 (fun s x => { s with ServerGroupId := x }) id o rest s
    (by cases s; simp_all)
    (by intro a; simp [decodeMember_serverGroupId, decPtrInt64_enc])

theorem step_rootPassword (x : GoString) (rest : Members) (s : VirtualMachineParameters) :
    decodeMembers ([("rootPassword", encString x)] ++ rest) s
      = decodeMembers rest { s with RootPassword := roundString x } :=
  step_req _ _ rest s _ (by simp [decodeMember_rootPassword, decString_enc])

theorem step_hostname (x : GoString) (rest : Members) (s : VirtualMachineParameters) :
    decodeMembers ([("hostname", encString x)] ++ rest) s
      = decodeMembers rest { s with Hostname := roundString x } :=
  step_req _ _ rest s _ (by simp [decodeMember_hostname, decString_enc])

theorem step_diskSpace (x : Int64) (rest : Members) (s : VirtualMachineParameters) :
    decodeMembers ([("diskSpace", encInt64 x)] ++ rest) s
      = decodeMembers rest { s with DiskSpace := x } :=
  step_req _ _ rest s _ (by simp [decodeMember_diskSpace, decInt64_enc])

theorem step_ram (x : Int64) (rest : Members) (s : VirtualMachineParameters) :
    decodeMembers ([("ram", encInt64 x)] ++ rest) s
      = decodeMembers rest { s with RAM := x } :=
  step_req _ _ rest s _ (by simp [decodeMember_ram, decInt64_enc])

theorem step_burstableRAM (o : Option Int64) (rest : Members)
    (s : VirtualMachineParameters) (h : s.BurstableRAM = none) :
    decodeMembers (omitEmpty "burstableRAM" encInt64 o ++ rest) s
      = decodeMembers rest { s with BurstableRAM := o } :=
  step_opt "burstableRAM" encInt64 (fun s x => { s with BurstableRAM := x }) id o rest s
    (by cases s; simp_all)
    (by intro a; simp [decodeMember_burstableRAM, decPtrInt64_enc])

theorem step_swapRAM (o : Option Int64) (rest : Members)
    (s : VirtualMachineParameters) (h : s.SwapRAM = none) :
    decodeMembers (omitEmpty "swapRAM" encInt64 o ++ rest) s
      = decodeMembers rest { s with SwapRAM := o } :=
  step_opt "swapRAM" encInt64 (fun s x => { s with SwapRAM := x }) id o rest s
    (by cases s; simp_all)
    (by intro a; simp [decodeMember_swapRAM, decPtrInt64_enc])

theorem step_bandwidth (x : Int64) (rest : Members) (s : VirtualMachineParameters) :
    decodeMembers ([("bandwidth", encInt64 x)] ++ rest) s
      = decodeMembers rest { s with Bandwidth := x } :=
  step_req _ _ rest s _ (by simp [decodeMember_bandwidth, decInt64_enc])

theorem step_userId (x : Int64) (rest : Members) (s : VirtualMachineParameters) :
    decodeMembers ([("userId", encInt64 x)] ++ rest) s
      = decodeMembers rest { s with UserId := x } :=
  step_req _ _ rest s _ (by simp [decodeMember_userId, decInt64_enc])

theorem step_cpu (o : Option Int64) (rest : Members)
    (s : VirtualMachineParameters) (h : s.CPU = none) :
    decodeMembers (omitEmpty "cpu" encInt64 o ++ rest) s
      = decodeMembers rest { s with CPU := o } :=
  step_opt "cpu" encInt64 (fun s x => { s with CPU := x }) id o rest s
    (by cases s; simp_all)
    (by intro a; simp [decodeMember_cpu, decPtrInt64_enc])

theorem step_cpuPercent (o : Option Int64) (rest : Members)
    (s : VirtualMachineParameters) (h : s.CPUPercent = none) :
    decodeMembers (omitEmpty "cpuPercent" encInt64 o ++ rest) s
      = decodeMembers rest { s with CPUPercent := o } :=
  step_opt "cpuPercent" encInt64 (fun s x => { s with CPUPercent := x }) id o rest s
    (by cases s; simp_all)
    (by intro a; simp [decodeMember_cpuPercent, decPtrInt64_enc])

theorem step_cpuCores (x : Int64) (rest : Members) (s : VirtualMachineParameters) :
    decodeMembers ([("cpuCores", encInt64 x)] ++ rest) s
      = decodeMembers rest { s with CPUCores := x } :=
  step_req _ _ rest s _ (by simp [decodeMember_cpuCores, decInt64_enc])

theorem step_numIpv4 (o : Option Int64) (rest : Members)
    (s : VirtualMachineParameters) (h : s.IPv4 = none) :
    decodeMembers (omitEmpty "numIpv4" encInt64 o ++ rest) s
      = decodeMembers rest { s with IPv4 := o } :=
  step_opt "numIpv4" encInt64 (fun s x => { s with IPv4 := x }) id o rest s
    (by cases s; simp_all)
    (by intro a; simp [decodeMember_numIpv4, decPtrInt64_enc])

theorem step_numInternalIps (o : Option Int64) (rest : Members)
    (s : VirtualMachineParameters) (h : s.IPInternal = none) :
    decodeMembers (omitEmpty "numInternalIps" encInt64 o ++ rest) s
      = decodeMembers rest { s with IPInternal := o } :=
  step_opt "numInternalIps" encInt64 (fun s x => { s with IPInternal := x }) id o rest s
    (by cases s; simp_all)
    (by intro a; simp [decodeMember_numInternalIps, decPtrInt64_enc])

theorem step_numIpv6 (o : Option Int64) (rest : Members)
    (s : VirtualMachineParameters) (h : s.IPv6 = none) :
    decodeMembers (omitEmpty "numIpv6" encInt64 o ++ rest) s
      = decodeMembers rest { s with IPv6 := o } :=
  step_opt "numIpv6" encInt64 (fun s x => { s with IPv6 := x }) id o rest s
    (by cases s; simp_all)
    (by intro a; simp [decodeMember_numIpv6, decPtrInt64_enc])

theorem step_numIpv6Subnets (o : Option Int64) (rest : Members)
    (s : VirtualMachineParameters) (h : s.Ipv6Subnet = none) :
    decodeMembers (omitEmpty "numIpv6Subnets" encInt64 o ++ rest) s
      = decodeMembers rest { s with Ipv6Subnet := o } :=
  step_opt "numIpv6Subnets" encInt64 (fun s x => { s with Ipv6Subnet := x }) id o rest s
    (by cases s; simp_all)
    (by intro a; simp [decodeMember_numIpv6Subnets, decPtrInt64_enc])

theorem step_enableVNC (o : Option Bool) (rest : Members)
    (s : VirtualMachineParameters) (h : s.EnableVNC = none) :
    decodeMembers (omitEmpty "enableVNC" JSON.bool o ++ rest) s
      = decodeMembers rest { s with EnableVNC := o } :=
  step_opt "enableVNC" JSON.bool (fun s x => { s with EnableVNC := x }) id o rest s
    (by cases s; simp_all)
    (by intro a; simp [decodeMember_enableVNC, decPtrBool])

theorem step_vncPassword (o : Option GoString) (rest : Members)
    (s : VirtualMachineParameters) (h : s.VNCPassword = none) :
    decodeMembers (omitEmpty "vncPassword" encString o ++ rest) s
      = decodeMembers rest { s with VNCPassword := o.map roundString } :=
  step_opt "vncPassword" encString (fun s x => { s with VNCPassword := x }) (Option.map roundString)
    o rest s
    (by cases s; simp_all)
    (by intro a; simp [decodeMember_vncPassword, decPtrString_enc])

theorem step_shadowMemory (o : Option Int64) (rest : Members)
    (s : VirtualMachineParameters) (h : s.ShadowMemory = none) :
    decodeMembers (omitEmpty "shadowMemory" encInt64 o ++ rest) s
      = decodeMembers rest { s with ShadowMemory := o } :=
  step_opt "shadowMemory" encInt64 (fun s x => { s with ShadowMemory := x }) id o rest s
    (by cases s; simp_all)
    (by intro a; simp [decodeMember_shadowMemory, decPtrInt64_enc])

theorem step_iso (o : Option GoString) (rest : Members)
    (s : VirtualMachineParameters) (h : s.ISO = none) :
    decodeMembers (omitEmpty "iso" encString o ++ rest) s
      = decodeMembers rest { s with ISO := o.map roundString } :=
  step_opt "iso" encString (fun s x => { s with ISO := x }) (Option.map roundString)
    o rest s
    (by cases s; simp_all)
    (by intro a; simp [decodeMember_iso, decPtrString_enc])

theorem step_bootOrder (o : Option Int64) (rest : Members)
    (s : VirtualMachineParameters) (h : s.BootOrder = none) :
    decodeMembers (omitEmpty "bootOrder" encInt64 o ++ rest) s
      = decodeMembers rest { s with BootOrder := o } :=
  step_opt "bootOrder" encInt64 (fun s x => { s with BootOrder := x }) id o rest s
    (by cases s; simp_all)
    (by intro a; simp [decodeMember_bootOrder, decPtrInt64_enc])

theorem step_enableTuntap (o : Option Int64) (rest : Members)
    (s : VirtualMachineParameters) (h : s.EnableTuntap = none) :
    decodeMembers (omitEmpty "enableTuntap" encInt64 o ++ rest) s
      = decodeMembers rest { s with EnableTuntap := o } :=
  step_opt "enableTuntap" encInt64 (fun s x => { s with EnableTuntap := x }) id o rest s
    (by cases s; simp_all)
    (by intro a; simp [decodeMember_enableTuntap, decPtrInt64_enc])

theorem step_enableIOPriority (o : Option Int64) (rest : Members)
    (s : VirtualMachineParameters) (h : s.EnableIOPriority = none) :
    decodeMembers (omitEmpty "enableIOPriority" encInt64 o ++ rest) s
      = decodeMembers rest { s with EnableIOPriority := o } :=
  step_opt "enableIOPriority" encInt64 (fun s x => { s with EnableIOPriority := x }) id o rest s
    (by cases s; simp_all)
    (by intro a; simp [decodeMember_enableIOPriority, decPtrInt64_enc])

theorem step_suspendIfBandwidthExceeded (o : Option Bool) (rest : Members)
    (s : VirtualMachineParameters) (h : s.SuspendIfBandwidthExceeded = none) :
    decodeMembers (omitEmpty "suspendIfBandwidthExceeded" JSON.bool o ++ rest) s
      = decodeMembers rest { s with SuspendIfBandwidthExceeded := o } :=
  step_opt "suspendIfBandwidthExceeded" JSON.bool (fun s x => { s with SuspendIfBandwidthExceeded := x }) id o rest s
    (by cases s; simp_all)
    (by intro a; simp [decodeMember_suspendIfBandwidthExceeded, decPtrBool])

theorem step_osReinstallLimit (o : Option Int64) (rest : Members)
    (s : VirtualMachineParameters) (h : s.OsReinstallLimit = none) :
    decodeMembers (omitEmpty "osReinstallLimit" encInt64 o ++ rest) s
      = decodeMembers rest { s with OsReinstallLimit := o } :=
  step_opt "osReinstallLimit" encInt64 (fun s x => { s with OsReinstallLimit := x }) id o rest s
    (by cases s; simp_all)
    (by intro a; simp [decodeMember_osReinstallLimit, decPtrInt64_enc])

theorem step_osId (x : Int64) (rest : Members) (s : VirtualMachineParameters) :
    decodeMembers ([("osId", encInt64 x)] ++ rest) s
      = decodeMembers rest { s with OSId := x } :=
  step_req _ _ rest s _ (by simp [decodeMember_osId, decInt64_enc])

theorem step_mediaGroupId (o : Option GoString) (rest : Members)
    (s : VirtualMachineParameters) (h : s.MediaGroupId = none) :
    decodeMembers (omitEmpty "mediaGroupId" encString o ++ rest) s
      = decodeMembers rest { s with MediaGroupId := o.map roundString } :=
  step_opt "mediaGroupId" encString (fun s x => { s with MediaGroupId := x }) (Option.map roundString)
    o rest s
    (by cases s; simp_all)
    (by intro a; simp [decodeMember_mediaGroupId, decPtrString_enc])

theorem step_nic (o : Option GoString) (rest : Members)
    (s : VirtualMachineParameters) (h : s.NIC = none) :
    decodeMembers (omitEmpty "nic" encString o ++ rest) s
      = decodeMembers rest { s with NIC := o.map roundString } :=
  step_opt "nic" encString (fun s x => { s with NIC := x }) (Option.map roundString)
    o rest s
    (by cases s; simp_all)
    (by intro a; simp [decodeMember_nic, decPtrString_enc])

theorem step_sshOptions (o : Option GoString) (rest : Members)
    (s : VirtualMachineParameters) (h : s.SSHOptions = none) :
    decodeMembers (omitEmpty "sshOptions" encString o ++ rest) s
      = decodeMembers rest { s with SSHOptions := o.map roundString } :=
  step_opt "sshOptions" encString (fun s x => { s with SSHOptions := x }) (Option.map roundString)
    o rest s
    (by cases s; simp_all)
    (by intro a; simp [decodeMember_sshOptions, decPtrString_enc])

theorem step_sshPublicKey (o : Option GoString) (rest : Members)
    (s : VirtualMachineParameters) (h : s.SSHPublicKey = none) :
    decodeMembers (omitEmpty "sshPublicKey" encString o ++ rest) s
      = decodeMembers rest { s with SSHPublicKey := o.map roundString } :=
  step_opt "sshPublicKey" encString (fun s x => { s with SSHPublicKey := x }) (Option.map roundString)
    o rest s
    (by cases s; simp_all)
    (by intro a; simp [decodeMember_sshPublicKey, decPtrString_enc])

theorem step_sshPrivateKey (o : Option Int64) (rest : Members)
    (s : VirtualMachineParameters) (h : s.SSHPrivateKey = none) :
    decodeMembers (omitEmpty "sshPrivateKey" encInt64 o ++ rest) s
      = decodeMembers rest { s with SSHPrivateKey := o } :=
  step_opt "sshPrivateKey" encInt64 (fun s x => { s with SSHPrivateKey := x }) id o rest s
    (by cases s; simp_all)
    (by intro a; simp [decodeMember_sshPrivateKey, decPtrInt64_enc])

theorem step_existingSSHKeys (o : Option (Slice GoString)) (rest : Members)
    (s : VirtualMachineParameters) (h : s.ExistingKeys = none) :
    decodeMembers (omitEmpty "existingSSHKeys" encStrings o ++ rest) s
      = decodeMembers rest { s with ExistingKeys := keysAfterRoundTrip o } :=
  step_opt "existingSSHKeys" encStrings (fun s x => { s with ExistingKeys := x }) keysAfterRoundTrip o rest s
    (by cases s; simp_all [keysAfterRoundTrip])
    (by intro a; simp [decodeMember_existingSSHKeys, h, decPtrStrings_enc])

theorem step_bios (o : Option GoString) (rest : Members)
    (s : VirtualMachineParameters) (h : s.BIOS = none) :
    decodeMembers (omitEmpty "bios" encString o ++ rest) s
      = decodeMembers rest { s with BIOS := o.map roundString } :=
  step_opt "bios" encString (fun s x => { s with BIOS := x }) (Option.map roundString)
    o rest s
    (by cases s; simp_all)
    (by intro a; simp [decodeMember_bios, decPtrString_enc])

/-- Decoding the encoding of `p` into a fresh struct succeeds and returns
`p` as the codec preserves it: strings coerced to valid UTF-8, and a pointer
at the nil slice in `existingSSHKeys` turned into the nil pointer. -/
theorem decodeMembers_members (p : VirtualMachineParameters) :
    decodeMembers p.members VirtualMachineParameters.zero = some p.afterRoundTrip := by
  obtain ⟨f1, f2, f3, f4, f5, f6, f7, f8, f9, f10, f11, f12, f13, f14, f15, f16, f17, f18, f19, f20, f21, f22, f23, f24, f25, f26, f27, f28, f29, f30, f31, f32, f33, f34⟩ := p
  have hlast : omitEmpty "bios" encString f34 = omitEmpty "bios" encString f34 ++ [] := by
    simp
  simp only [VirtualMachineParameters.members, VirtualMachineParameters.zero]
  rw [hlast]
  simp only [step_virtualization, step_serverGroupId, step_rootPassword, step_hostname, step_diskSpace, step_ram, step_burstableRAM, step_swapRAM, step_bandwidth, step_userId, step_cpu, step_cpuPercent, step_cpuCores, step_numIpv4, step_numInternalIps, step_numIpv6, step_numIpv6Subnets, step_enableVNC, step_vncPassword, step_shadowMemory, step_iso, step_bootOrder, step_enableTuntap, step_enableIOPriority, step_suspendIfBandwidthExceeded, step_osReinstallLimit, step_osId, step_mediaGroupId, step_nic, step_sshOptions, step_sshPublicKey, step_sshPrivateKey, step_existingSSHKeys, step_bios]
  rfl
/-! ## Looking a key up in the encoding -/

theorem getKey_append (k : String) (a b : Members) :
    getKey k (a ++ b) = (getKey k a).orElse (fun _ => getKey k b) := by
  induction a with
  | nil => rfl
  | cons kv a ih =>
    obtain ⟨k', v⟩ := kv
    by_cases h : k' = k <;> simp [getKey, h, ih]

theorem getKey_cons (k k' : String) (v : JSON) (rest : Members) :
    getKey k ((k', v) :: rest) = if k' = k then some v else getKey k rest := rfl

theorem getKey_omitEmpty {α : Type} (k k' : String) (enc : α → JSON) (o : Option α) :
    getKey k (omitEmpty k' enc o) = if k' = k then o.map enc else none := by
  cases o <;> simp [omitEmpty, getKey]

/-! ## A member whose key matches no tag is ignored -/

theorem decodeMember_other (p : VirtualMachineParameters) (k : String) (v : JSON)
    (h1 : ¬ keyIs "virtualization" k) (h2 : ¬ keyIs "serverGroupId" k) (h3 : ¬ keyIs "rootPassword" k) (h4 : ¬ keyIs "hostname" k) (h5 : ¬ keyIs "diskSpace" k) (h6 : ¬ keyIs "ram" k) (h7 : ¬ keyIs "burstableRAM" k) (h8 : ¬ keyIs "swapRAM" k) (h9 : ¬ keyIs "bandwidth" k) (h10 : ¬ keyIs "userId" k) (h11 : ¬ keyIs "cpu" k) (h12 : ¬ keyIs "cpuPercent" k) (h13 : ¬ keyIs "cpuCores" k) (h14 : ¬ keyIs "numIpv4" k) (h15 : ¬ keyIs "numInternalIps" k) (h16 : ¬ keyIs "numIpv6" k) (h17 : ¬ keyIs "numIpv6Subnets" k) (h18 : ¬ keyIs "enableVNC" k) (h19 : ¬ keyIs "vncPassword" k) (h20 : ¬ keyIs "shadowMemory" k) (h21 : ¬ keyIs "iso" k) (h22 : ¬ keyIs "bootOrder" k) (h23 : ¬ keyIs "enableTuntap" k) (h24 : ¬ keyIs "enableIOPriority" k) (h25 : ¬ keyIs "suspendIfBandwidthExceeded" k) (h26 : ¬ keyIs "osReinstallLimit" k) (h27 : ¬ keyIs "osId" k) (h28 : ¬ keyIs "mediaGroupId" k) (h29 : ¬ keyIs "nic" k) (h30 : ¬ keyIs "sshOptions" k) (h31 : ¬ keyIs "sshPublicKey" k) (h32 : ¬ keyIs "sshPrivateKey" k) (h33 : ¬ keyIs "existingSSHKeys" k) (h34 : ¬ keyIs "bios" k) :
    decodeMember p k v = some p := by
  unfold decodeMember
  rw [if_neg h1, if_neg h2, if_neg h3, if_neg h4, if_neg h5, if_neg h6, if_neg h7, if_neg h8, if_neg h9, if_neg h10, if_neg h11, if_neg h12, if_neg h13, if_neg h14, if_neg h15, if_neg h16, if_neg h17, if_neg h18, if_neg h19, if_neg h20, if_neg h21, if_neg h22, if_neg h23, if_neg h24, if_neg h25, if_neg h26, if_neg h27, if_neg h28, if_neg h29, if_neg h30, if_neg h31, if_neg h32, if_neg h33, if_neg h34]

/-! ## Members that do not select a required field leave it alone -/

theorem decodeMember_keeps (p q : VirtualMachineParameters) (k : String) (v : JSON)
    (h : decodeMember p k v = some q) :
    (¬ keyIs "virtualization" k → q.Virtualization = p.Virtualization) ∧
    (¬ keyIs "rootPassword" k → q.RootPassword = p.RootPassword) ∧
    (¬ keyIs "hostname" k → q.Hostname = p.Hostname) ∧
    (¬ keyIs "diskSpace" k → q.DiskSpace = p.DiskSpace) ∧
    (¬ keyIs "ram" k → q.RAM = p.RAM) ∧
    (¬ keyIs "bandwidth" k → q.Bandwidth = p.Bandwidth) ∧
    (¬ keyIs "userId" k → q.UserId = p.UserId) ∧
    (¬ keyIs "cpuCores" k → q.CPUCores = p.CPUCores) ∧
    (¬ keyIs "osId" k → q.OSId = p.OSId) := by
  by_cases h1 : keyIs "virtualization" k
  · have e : decodeMember p k v
        = (decString p.Virtualization v).map (fun x => { p with Virtualization := x }) := by
      unfold decodeMember
      rw [if_pos h1]
    rw [e, Option.map_eq_some'] at h
    obtain ⟨x, -, rfl⟩ := h
    simp [h1]
  by_cases h2 : keyIs "serverGroupId" k
  · have e : decodeMember p k v
        = (decPtrInt64 v).map (fun x => { p with ServerGroupId := x }) := by
      unfold decodeMember
      rw [if_neg h1, if_pos h2]
    rw [e, Option.map_eq_some'] at h
    obtain ⟨x, -, rfl⟩ := h
    simp [h2]
  by_cases h3 : keyIs "rootPassword" k
  · have e : decodeMember p k v
        = (decString p.RootPassword v).map (fun x => { p with RootPassword := x }) := by
      unfold decodeMember
      rw [if_neg h1, if_neg h2, if_pos h3]
    rw [e, Option.map_eq_some'] at h
    obtain ⟨x, -, rfl⟩ := h
    simp [h3]
  by_cases h4 : keyIs "hostname" k
  · have e : decodeMember p k v
        = (decString p.Hostname v).map (fun x => { p with Hostname := x }) := by
      unfold decodeMember
      rw [if_neg h1, if_neg h2, if_neg h3, if_pos h4]
    rw [e, Option.map_eq_some'] at h
    obtain ⟨x, -, rfl⟩ := h
    simp [h4]
  by_cases h5 : keyIs "diskSpace" k
  · have e : decodeMember p k v
        = (decInt64 p.DiskSpace v).map (fun x => { p with DiskSpace := x }) := by
      unfold decodeMember
      rw [if_neg h1, if_neg h2, if_neg h3, if_neg h4, if_pos h5]
    rw [e, Option.map_eq_some'] at h
    obtain ⟨x, -, rfl⟩ := h
    simp [h5]
  by_cases h6 : keyIs "ram" k
  · have e : decodeMember p k v
        = (decInt64 p.RAM v).map (fun x => { p with RAM := x }) := by
      unfold decodeMember
      rw [if_neg h1, if_neg h2, if_neg h3, if_neg h4, if_neg h5, if_pos h6]
    rw [e, Option.map_eq_some'] at h
    obtain ⟨x, -, rfl⟩ := h
    simp [h6]
  by_cases h7 : keyIs "burstableRAM" k
  · have e : decodeMember p k v
        = (decPtrInt64 v).map (fun x => { p with BurstableRAM := x }) := by
      unfold decodeMember
      rw [if_neg h1, if_neg h2, if_neg h3, if_neg h4, if_neg h5, if_neg h6, if_pos h7]
    rw [e, Option.map_eq_some'] at h
    obtain ⟨x, -, rfl⟩ := h
    simp [h7]
  by_cases h8 : keyIs "swapRAM" k
  · have e : decodeMember p k v
        = (decPtrInt64 v).map (fun x => { p with SwapRAM := x }) := by
      unfold decodeMember
      rw [if_neg h1, if_neg h2, if_neg h3, if_neg h4, if_neg h5, if_neg h6, if_neg h7, if_pos h8]
    rw [e, Option.map_eq_some'] at h
    obtain ⟨x, -, rfl⟩ := h
    simp [h8]
  by_cases h9 : keyIs "bandwidth" k
  · have e : decodeMember p k v
        = (decInt64 p.Bandwidth v).map (fun x => { p with Bandwidth := x }) := by
      unfold decodeMember
      rw [if_neg h1, if_neg h2, if_neg h3, if_neg h4, if_neg h5, if_neg h6, if_neg h7, if_neg h8, if_pos h9]
    rw [e, Option.map_eq_some'] at h
    obtain ⟨x, -, rfl⟩ := h
    simp [h9]
  by_cases h10 : keyIs "userId" k
  · have e : decodeMember p k v
        = (decInt64 p.UserId v).map (fun x => { p with UserId := x }) := by
      unfold decodeMember
      rw [if_neg h1, if_neg h2, if_neg h3, if_neg h4, if_neg h5, if_neg h6, if_neg h7, if_neg h8, if_neg h9, if_pos h10]
    rw [e, Option.map_eq_some'] at h
    obtain ⟨x, -, rfl⟩ := h
    simp [h10]
  by_cases h11 : keyIs "cpu" k
  · have e : decodeMember p k v
        = (decPtrInt64 v).map (fun x => { p with CPU := x }) := by
      unfold decodeMember
      rw [if_neg h1, if_neg h2, if_neg h3, if_neg h4, if_neg h5, if_neg h6, if_neg h7, if_neg h8, if_neg h9, if_neg h10, if_pos h11]
    rw [e, Option.map_eq_some'] at h
    obtain ⟨x, -, rfl⟩ := h
    simp [h11]
  by_cases h12 : keyIs "cpuPercent" k
  · have e : decodeMember p k v
        = (decPtrInt64 v).map (fun x => { p with CPUPercent := x }) := by
      unfold decodeMember
      rw [if_neg h1, if_neg h2, if_neg h3, if_neg h4, if_neg h5, if_neg h6, if_neg h7, if_neg h8, if_neg h9, if_neg h10, if_neg h11, if_pos h12]
    rw [e, Option.map_eq_some'] at h
    obtain ⟨x, -, rfl⟩ := h
    simp [h12]
  by_cases h13 : keyIs "cpuCores" k
  · have e : decodeMember p k v
        = (decInt64 p.CPUCores v).map (fun x => { p with CPUCores := x }) := by
      unfold decodeMember
      rw [if_neg h1, if_neg h2, if_neg h3, if_neg h4, if_neg h5, if_neg h6, if_neg h7, if_neg h8, if_neg h9, if_neg h10, if_neg h11, if_neg h12, if_pos h13]
    rw [e, Option.map_eq_some'] at h
    obtain ⟨x, -, rfl⟩ := h
    simp [h13]
  by_cases h14 : keyIs "numIpv4" k
  · have e : decodeMember p k v
        = (decPtrInt64 v).map (fun x => { p with IPv4 := x }) := by
      unfold decodeMember
      rw [if_neg h1, if_neg h2, if_neg h3, if_neg h4, if_neg h5, if_neg h6, if_neg h7, if_neg h8, if_neg h9, if_neg h10, if_neg h11, if_neg h12, if_neg h13, if_pos h14]
    rw [e, Option.map_eq_some'] at h
    obtain ⟨x, -, rfl⟩ := h
    simp [h14]
  by_cases h15 : keyIs "numInternalIps" k
  · have e : decodeMember p k v
        = (decPtrInt64 v).map (fun x => { p with IPInternal := x }) := by
      unfold decodeMember
      rw [if_neg h1, if_neg h2, if_neg h3, if_neg h4, if_neg h5, if_neg h6, if_neg h7, if_neg h8, if_neg h9, if_neg h10, if_neg h11, if_neg h12, if_neg h13, if_neg h14, if_pos h15]
    rw [e, Option.map_eq_some'] at h
    obtain ⟨x, -, rfl⟩ := h
    simp [h15]
  by_cases h16 : keyIs "numIpv6" k
  · have e : decodeMember p k v
        = (decPtrInt64 v).map (fun x => { p with IPv6 := x }) := by
      unfold decodeMember
      rw [if_neg h1, if_neg h2, if_neg h3, if_neg h4, if_neg h5, if_neg h6, if_neg h7, if_neg h8, if_neg h9, if_neg h10, if_neg h11, if_neg h12, if_neg h13, if_neg h14, if_neg h15, if_pos h16]
    rw [e, Option.map_eq_some'] at h
    obtain ⟨x, -, rfl⟩ := h
    simp [h16]
  by_cases h17 : keyIs "numIpv6Subnets" k
  · have e : decodeMember p k v
        = (decPtrInt64 v).map (fun x => { p with Ipv6Subnet := x }) := by
      unfold decodeMember
      rw [if_neg h1, if_neg h2, if_neg h3, if_neg h4, if_neg h5, if_neg h6, if_neg h7, if_neg h8, if_neg h9, if_neg h10, if_neg h11, if_neg h12, if_neg h13, if_neg h14, if_neg h15, if_neg h16, if_pos h17]
    rw [e, Option.map_eq_some'] at h
    obtain ⟨x, -, rfl⟩ := h
    simp [h17]
  by_cases h18 : keyIs "enableVNC" k
  · have e : decodeMember p k v
        = (decPtrBool v).map (fun x => { p with EnableVNC := x }) := by
      unfold decodeMember
      rw [if_neg h1, if_neg h2, if_neg h3, if_neg h4, if_neg h5, if_neg h6, if_neg h7, if_neg h8, if_neg h9, if_neg h10, if_neg h11, if_neg h12, if_neg h13, if_neg h14, if_neg h15, if_neg h16, if_neg h17, if_pos h18]
    rw [e, Option.map_eq_some'] at h
    obtain ⟨x, -, rfl⟩ := h
    simp [h18]
  by_cases h19 : keyIs "vncPassword" k
  · have e : decodeMember p k v
        = (decPtrString v).map (fun x => { p with VNCPassword := x }) := by
      unfold decodeMember
      rw [if_neg h1, if_neg h2, if_neg h3, if_neg h4, if_neg h5, if_neg h6, if_neg h7, if_neg h8, if_neg h9, if_neg h10, if_neg h11, if_neg h12, if_neg h13, if_neg h14, if_neg h15, if_neg h16, if_neg h17, if_neg h18, if_pos h19]
    rw [e, Option.map_eq_some'] at h
    obtain ⟨x, -, rfl⟩ := h
    simp [h19]
  by_cases h20 : keyIs "shadowMemory" k
  · have e : decodeMember p k v
        = (decPtrInt64 v).map (fun x => { p with ShadowMemory := x }) := by
      unfold decodeMember
      rw [if_neg h1, if_neg h2, if_neg h3, if_neg h4, if_neg h5, if_neg h6, if_neg h7, if_neg h8, if_neg h9, if_neg h10, if_neg h11, if_neg h12, if_neg h13, if_neg h14, if_neg h15, if_neg h16, if_neg h17, if_neg h18, if_neg h19, if_pos h20]
    rw [e, Option.map_eq_some'] at h
    obtain ⟨x, -, rfl⟩ := h
    simp [h20]
  by_cases h21 : keyIs "iso" k
  · have e : decodeMember p k v
        = (decPtrString v).map (fun x => { p with ISO := x }) := by
      unfold decodeMember
      rw [if_neg h1, if_neg h2, if_neg h3, if_neg h4, if_neg h5, if_neg h6, if_neg h7, if_neg h8, if_neg h9, if_neg h10, if_neg h11, if_neg h12, if_neg h13, if_neg h14, if_neg h15, if_neg h16, if_neg h17, if_neg h18, if_neg h19, if_neg h20, if_pos h21]
    rw [e, Option.map_eq_some'] at h
    obtain ⟨x, -, rfl⟩ := h
    simp [h21]
  by_cases h22 : keyIs "bootOrder" k
  · have e : decodeMember p k v
        = (decPtrInt64 v).map (fun x => { p with BootOrder := x }) := by
      unfold decodeMember
      rw [if_neg h1, if_neg h2, if_neg h3, if_neg h4, if_neg h5, if_neg h6, if_neg h7, if_neg h8, if_neg h9, if_neg h10, if_neg h11, if_neg h12, if_neg h13, if_neg h14, if_neg h15, if_neg h16, if_neg h17, if_neg h18, if_neg h19, if_neg h20, if_neg h21, if_pos h22]
    rw [e, Option.map_eq_some'] at h
    obtain ⟨x, -, rfl⟩ := h
    simp [h22]
  by_cases h23 : keyIs "enableTuntap" k
  · have e : decodeMember p k v
        = (decPtrInt64 v).map (fun x => { p with EnableTuntap := x }) := by
      unfold decodeMember
      rw [if_neg h1, if_neg h2, if_neg h3, if_neg h4, if_neg h5, if_neg h6, if_neg h7, if_neg h8, if_neg h9, if_neg h10, if_neg h11, if_neg h12, if_neg h13, if_neg h14, if_neg h15, if_neg h16, if_neg h17, if_neg h18, if_neg h19, if_neg h20, if_neg h21, if_neg h22, if_pos h23]
    rw [e, Option.map_eq_some'] at h
    obtain ⟨x, -, rfl⟩ := h
    simp [h23]
  by_cases h24 : keyIs "enableIOPriority" k
  · have e : decodeMember p k v
        = (decPtrInt64 v).map (fun x => { p with EnableIOPriority := x }) := by
      unfold decodeMember
      rw [if_neg h1, if_neg h2, if_neg h3, if_neg h4, if_neg h5, if_neg h6, if_neg h7, if_neg h8, if_neg h9, if_neg h10, if_neg h11, if_neg h12, if_neg h13, if_neg h14, if_neg h15, if_neg h16, if_neg h17, if_neg h18, if_neg h19, if_neg h20, if_neg h21, if_neg h22, if_neg h23, if_pos h24]
    rw [e, Option.map_eq_some'] at h
    obtain ⟨x, -, rfl⟩ := h
    simp [h24]
  by_cases h25 : keyIs "suspendIfBandwidthExceeded" k
  · have e : decodeMember p k v
        = (decPtrBool v).map (fun x => { p with SuspendIfBandwidthExceeded := x }) := by
      unfold decodeMember
      rw [if_neg h1, if_neg h2, if_neg h3, if_neg h4, if_neg h5, if_neg h6, if_neg h7, if_neg h8, if_neg h9, if_neg h10, if_neg h11, if_neg h12, if_neg h13, if_neg h14, if_neg h15, if_neg h16, if_neg h17, if_neg h18, if_neg h19, if_neg h20, if_neg h21, if_neg h22, if_neg h23, if_neg h24, if_pos h25]
    rw [e, Option.map_eq_some'] at h
    obtain ⟨x, -, rfl⟩ := h
    simp [h25]
  by_cases h26 : keyIs "osReinstallLimit" k
  · have e : decodeMember p k v
        = (decPtrInt64 v).map (fun x => { p with OsReinstallLimit := x }) := by
      unfold decodeMember
      rw [if_neg h1, if_neg h2, if_neg h3, if_neg h4, if_neg h5, if_neg h6, if_neg h7, if_neg h8, if_neg h9, if_neg h10, if_neg h11, if_neg h12, if_neg h13, if_neg h14, if_neg h15, if_neg h16, if_neg h17, if_neg h18, if_neg h19, if_neg h20, if_neg h21, if_neg h22, if_neg h23, if_neg h24, if_neg h25, if_pos h26]
    rw [e, Option.map_eq_some'] at h
    obtain ⟨x, -, rfl⟩ := h
    simp [h26]
  by_cases h27 : keyIs "osId" k
  · have e : decodeMember p k v
        = (decInt64 p.OSId v).map (fun x => { p with OSId := x }) := by
      unfold decodeMember
      rw [if_neg h1, if_neg h2, if_neg h3, if_neg h4, if_neg h5, if_neg h6, if_neg h7, if_neg h8, if_neg h9, if_neg h10, if_neg h11, if_neg h12, if_neg h13, if_neg h14, if_neg h15, if_neg h16, if_neg h17, if_neg h18, if_neg h19, if_neg h20, if_neg h21, if_neg h22, if_neg h23, if_neg h24, if_neg h25, if_neg h26, if_pos h27]
    rw [e, Option.map_eq_some'] at h
    obtain ⟨x, -, rfl⟩ := h
    simp [h27]
  by_cases h28 : keyIs "mediaGroupId" k
  · have e : decodeMember p k v
        = (decPtrString v).map (fun x => { p with MediaGroupId := x }) := by
      unfold decodeMember
      rw [if_neg h1, if_neg h2, if_neg h3, if_neg h4, if_neg h5, if_neg h6, if_neg h7, if_neg h8, if_neg h9, if_neg h10, if_neg h11, if_neg h12, if_neg h13, if_neg h14, if_neg h15, if_neg h16, if_neg h17, if_neg h18, if_neg h19, if_neg h20, if_neg h21, if_neg h22, if_neg h23, if_neg h24, if_neg h25, if_neg h26, if_neg h27, if_pos h28]
    rw [e, Option.map_eq_some'] at h
    obtain ⟨x, -, rfl⟩ := h
    simp [h28]
  by_cases h29 : keyIs "nic" k
  · have e : decodeMember p k v
        = (decPtrString v).map (fun x => { p with NIC := x }) := by
      unfold decodeMember
      rw [if_neg h1, if_neg h2, if_neg h3, if_neg h4, if_neg h5, if_neg h6, if_neg h7, if_neg h8, if_neg h9, if_neg h10, if_neg h11, if_neg h12, if_neg h13, if_neg h14, if_neg h15, if_neg h16, if_neg h17, if_neg h18, if_neg h19, if_neg h20, if_neg h21, if_neg h22, if_neg h23, if_neg h24, if_neg h25, if_neg h26, if_neg h27, if_neg h28, if_pos h29]
    rw [e, Option.map_eq_some'] at h
    obtain ⟨x, -, rfl⟩ := h
    simp [h29]
  by_cases h30 : keyIs "sshOptions" k
  · have e : decodeMember p k v
        = (decPtrString v).map (fun x => { p with SSHOptions := x }) := by
      unfold decodeMember
      rw [if_neg h1, if_neg h2, if_neg h3, if_neg h4, if_neg h5, if_neg h6, if_neg h7, if_neg h8, if_neg h9, if_neg h10, if_neg h11, if_neg h12, if_neg h13, if_neg h14, if_neg h15, if_neg h16, if_neg h17, if_neg h18, if_neg h19, if_neg h20, if_neg h21, if_neg h22, if_neg h23, if_neg h24, if_neg h25, if_neg h26, if_neg h27, if_neg h28, if_neg h29, if_pos h30]
    rw [e, Option.map_eq_some'] at h
    obtain ⟨x, -, rfl⟩ := h
    simp [h30]
  by_cases h31 : keyIs "sshPublicKey" k
  · have e : decodeMember p k v
        = (decPtrString v).map (fun x => { p with SSHPublicKey := x }) := by
      unfold decodeMember
      rw [if_neg h1, if_neg h2, if_neg h3, if_neg h4, if_neg h5, if_neg h6, if_neg h7, if_neg h8, if_neg h9, if_neg h10, if_neg h11, if_neg h12, if_neg h13, if_neg h14, if_neg h15, if_neg h16, if_neg h17, if_neg h18, if_neg h19, if_neg h20, if_neg h21, if_neg h22, if_neg h23, if_neg h24, if_neg h25, if_neg h26, if_neg h27, if_neg h28, if_neg h29, if_neg h30, if_pos h31]
    rw [e, Option.map_eq_some'] at h
    obtain ⟨x, -, rfl⟩ := h
    simp [h31]
  by_cases h32 : keyIs "sshPrivateKey" k
  · have e : decodeMember p k v
        = (decPtrInt64 v).map (fun x => { p with SSHPrivateKey := x }) := by
      unfold decodeMember
      rw [if_neg h1, if_neg h2, if_neg h3, if_neg h4, if_neg h5, if_neg h6, if_neg h7, if_neg h8, if_neg h9, if_neg h10, if_neg h11, if_neg h12, if_neg h13, if_neg h14, if_neg h15, if_neg h16, if_neg h17, if_neg h18, if_neg h19, if_neg h20, if_neg h21, if_neg h22, if_neg h23, if_neg h24, if_neg h25, if_neg h26, if_neg h27, if_neg h28, if_neg h29, if_neg h30, if_neg h31, if_pos h32]
    rw [e, Option.map_eq_some'] at h
    obtain ⟨x, -, rfl⟩ := h
    simp [h32]
  by_cases h33 : keyIs "existingSSHKeys" k
  · have e : decodeMember p k v
        = (decPtrStrings p.ExistingKeys v).map (fun x => { p with ExistingKeys := x }) := by
      unfold decodeMember
      rw [if_neg h1, if_neg h2, if_neg h3, if_neg h4, if_neg h5, if_neg h6, if_neg h7, if_neg h8, if_neg h9, if_neg h10, if_neg h11, if_neg h12, if_neg h13, if_neg h14, if_neg h15, if_neg h16, if_neg h17, if_neg h18, if_neg h19, if_neg h20, if_neg h21, if_neg h22, if_neg h23, if_neg h24, if_neg h25, if_neg h26, if_neg h27, if_neg h28, if_neg h29, if_neg h30, if_neg h31, if_neg h32, if_pos h33]
    rw [e, Option.map_eq_some'] at h
    obtain ⟨x, -, rfl⟩ := h
    simp [h33]
  by_cases h34 : keyIs "bios" k
  · have e : decodeMember p k v
        = (decPtrString v).map (fun x => { p with BIOS := x }) := by
      unfold decodeMember
      rw [if_neg h1, if_neg h2, if_neg h3, if_neg h4, if_neg h5, if_neg h6, if_neg h7, if_neg h8, if_neg h9, if_neg h10, if_neg h11, if_neg h12, if_neg h13, if_neg h14, if_neg h15, if_neg h16, if_neg h17, if_neg h18, if_neg h19, if_neg h20, if_neg h21, if_neg h22, if_neg h23, if_neg h24, if_neg h25, if_neg h26, if_neg h27, if_neg h28, if_neg h29, if_neg h30, if_neg h31, if_neg h32, if_neg h33, if_pos h34]
    rw [e, Option.map_eq_some'] at h
    obtain ⟨x, -, rfl⟩ := h
    simp [h34]
  rw [decodeMember_other p k v h1 h2 h3 h4 h5 h6 h7 h8 h9 h10 h11 h12 h13 h14 h15 h16 h17 h18 h19 h20 h21 h22 h23 h24 h25 h26 h27 h28 h29 h30 h31 h32 h33 h34] at h
  cases h
  simp

theorem lacksKey_cons (tag k : String) (v : JSON) (rest : Members)
    (h : lacksKey tag ((k, v) :: rest)) : ¬ keyIs tag k ∧ lacksKey tag rest :=
  ⟨h (k, v) (List.mem_cons_self _ _), fun kv hkv => h kv (List.mem_cons_of_mem _ hkv)⟩

theorem decodeMembers_keeps (kvs : Members) (p q : VirtualMachineParameters)
    (h : decodeMembers kvs p = some q) :
    (lacksKey "virtualization" kvs → q.Virtualization = p.Virtualization) ∧
    (lacksKey "rootPassword" kvs → q.RootPassword = p.RootPassword) ∧
    (lacksKey "hostname" kvs → q.Hostname = p.Hostname) ∧
    (lacksKey "diskSpace" kvs → q.DiskSpace = p.DiskSpace) ∧
    (lacksKey "ram" kvs → q.RAM = p.RAM) ∧
    (lacksKey "bandwidth" kvs → q.Bandwidth = p.Bandwidth) ∧
    (lacksKey "userId" kvs → q.UserId = p.UserId) ∧
    (lacksKey "cpuCores" kvs → q.CPUCores = p.CPUCores) ∧
    (lacksKey "osId" kvs → q.OSId = p.OSId) := by
  induction kvs generalizing p with
  | nil =>
    simp only [decodeMembers, Option.some.injEq] at h
    subst h
    simp
  | cons kv rest ih =>
    obtain ⟨k, v⟩ := kv
    simp only [decodeMembers] at h
    cases hm : decodeMember p k v with
    | none => simp [hm] at h
    | some r =>
      rw [hm] at h
      have h1 := decodeMember_keeps p r k v hm
      have h2 := ih r h
      obtain ⟨a1, a2, a3, a4, a5, a6, a7, a8, a9⟩ := h1
      obtain ⟨b1, b2, b3, b4, b5, b6, b7, b8, b9⟩ := h2
      refine ⟨?_, ?_, ?_, ?_, ?_, ?_, ?_, ?_, ?_⟩ <;> intro hk <;>
        obtain ⟨hne, hrest⟩ := lacksKey_cons _ _ _ _ hk
      · exact (b1 hrest).trans (a1 hne)
      · exact (b2 hrest).trans (a2 hne)
      · exact (b3 hrest).trans (a3 hne)
      · exact (b4 hrest).trans (a4 hne)
      · exact (b5 hrest).trans (a5 hne)
      · exact (b6 hrest).trans (a6 hne)
      · exact (b7 hrest).trans (a7 hne)
      · exact (b8 hrest).trans (a8 hne)
      · exact (b9 hrest).trans (a9 hne)

/-! ## Dropping the member of a required field from an encoding -/

theorem dropKey_append (tag : String) (a b : Members) :
    dropKey tag (a ++ b) = dropKey tag a ++ dropKey tag b := by
  simp [dropKey]

theorem dropKey_single_ne (tag k : String) (v : JSON) (h : ¬ keyIs tag k) :
    dropKey tag [(k, v)] = [(k, v)] := by
  simp [dropKey, h]

theorem dropKey_single_eq (tag k : String) (v : JSON) (h : keyIs tag k) :
    dropKey tag [(k, v)] = [] := by
  simp [dropKey, h]

theorem dropKey_omitEmpty_ne {α : Type} (tag k : String) (enc : α → JSON) (o : Option α)
    (h : ¬ keyIs tag k) : dropKey tag (omitEmpty k enc o) = omitEmpty k enc o := by
  cases o <;> simp [omitEmpty, dropKey, h]

theorem decode_without_virtualization (p : VirtualMachineParameters) :
    (VirtualMachineParameters.decode (p.encode.without "virtualization")).map
      (fun q => q.Virtualization) = some [] := by
  obtain ⟨f1, f2, f3, f4, f5, f6, f7, f8, f9, f10, f11, f12, f13, f14, f15, f16, f17, f18, f19, f20, f21, f22, f23, f24, f25, f26, f27, f28, f29, f30, f31, f32, f33, f34⟩ := p
  have hlast : omitEmpty "bios" encString f34 = omitEmpty "bios" encString f34 ++ [] := by
    simp
  simp +decide only [VirtualMachineParameters.encode, JSON.without,
    VirtualMachineParameters.members, dropKey_append, dropKey_single_ne,
    dropKey_single_eq, dropKey_omitEmpty_ne, List.nil_append,
    VirtualMachineParameters.decode, VirtualMachineParameters.decodeInto,
    VirtualMachineParameters.zero]
  rw [hlast]
  simp only [step_virtualization, step_serverGroupId, step_rootPassword, step_hostname, step_diskSpace, step_ram, step_burstableRAM, step_swapRAM, step_bandwidth, step_userId, step_cpu, step_cpuPercent, step_cpuCores, step_numIpv4, step_numInternalIps, step_numIpv6, step_numIpv6Subnets, step_enableVNC, step_vncPassword, step_shadowMemory, step_iso, step_bootOrder, step_enableTuntap, step_enableIOPriority, step_suspendIfBandwidthExceeded, step_osReinstallLimit, step_osId, step_mediaGroupId, step_nic, step_sshOptions, step_sshPublicKey, step_sshPrivateKey, step_existingSSHKeys, step_bios]
  rfl

theorem decode_without_rootPassword (p : VirtualMachineParameters) :
    (VirtualMachineParameters.decode (p.encode.without "rootPassword")).map
      (fun q => q.RootPassword) = some [] := by
  obtain ⟨f1, f2, f3, f4, f5, f6, f7, f8, f9, f10, f11, f12, f13, f14, f15, f16, f17, f18, f19, f20, f21, f22, f23, f24, f25, f26, f27, f28, f29, f30, f31, f32, f33, f34⟩ := p
  have hlast : omitEmpty "bios" encString f34 = omitEmpty "bios" encString f34 ++ [] := by
    simp
  simp +decide only [VirtualMachineParameters.encode, JSON.without,
    VirtualMachineParameters.members, dropKey_append, dropKey_single_ne,
    dropKey_single_eq, dropKey_omitEmpty_ne, List.nil_append,
    VirtualMachineParameters.decode, VirtualMachineParameters.decodeInto,
    VirtualMachineParameters.zero]
  rw [hlast]
  simp only [step_virtualization, step_serverGroupId, step_rootPassword, step_hostname, step_diskSpace, step_ram, step_burstableRAM, step_swapRAM, step_bandwidth, step_userId, step_cpu, step_cpuPercent, step_cpuCores, step_numIpv4, step_numInternalIps, step_numIpv6, step_numIpv6Subnets, step_enableVNC, step_vncPassword, step_shadowMemory, step_iso, step_bootOrder, step_enableTuntap, step_enableIOPriority, step_suspendIfBandwidthExceeded, step_osReinstallLimit, step_osId, step_mediaGroupId, step_nic, step_sshOptions, step_sshPublicKey, step_sshPrivateKey, step_existingSSHKeys, step_bios]
  rfl

theorem decode_without_hostname (p : VirtualMachineParameters) :
    (VirtualMachineParameters.decode (p.encode.without "hostname")).map
      (fun q => q.Hostname) = some [] := by
  obtain ⟨f1, f2, f3, f4, f5, f6, f7, f8, f9, f10, f11, f12, f13, f14, f15, f16, f17, f18, f19, f20, f21, f22, f23, f24, f25, f26, f27, f28, f29, f30, f31, f32, f33, f34⟩ := p
  have hlast : omitEmpty "bios" encString f34 = omitEmpty "bios" encString f34 ++ [] := by
    simp
  simp +decide only [VirtualMachineParameters.encode, JSON.without,
    VirtualMachineParameters.members, dropKey_append, dropKey_single_ne,
    dropKey_single_eq, dropKey_omitEmpty_ne, List.nil_append,
    VirtualMachineParameters.decode, VirtualMachineParameters.decodeInto,
    VirtualMachineParameters.zero]
  rw [hlast]
  simp only [step_virtualization, step_serverGroupId, step_rootPassword, step_hostname, step_diskSpace, step_ram, step_burstableRAM, step_swapRAM, step_bandwidth, step_userId, step_cpu, step_cpuPercent, step_cpuCores, step_numIpv4, step_numInternalIps, step_numIpv6, step_numIpv6Subnets, step_enableVNC, step_vncPassword, step_shadowMemory, step_iso, step_bootOrder, step_enableTuntap, step_enableIOPriority, step_suspendIfBandwidthExceeded, step_osReinstallLimit, step_osId, step_mediaGroupId, step_nic, step_sshOptions, step_sshPublicKey, step_sshPrivateKey, step_existingSSHKeys, step_bios]
  rfl

theorem decode_without_diskSpace (p : VirtualMachineParameters) :
    (VirtualMachineParameters.decode (p.encode.without "diskSpace")).map
      (fun q => q.DiskSpace) = some Int64.zero := by
  obtain ⟨f1, f2, f3, f4, f5, f6, f7, f8, f9, f10, f11, f12, f13, f14, f15, f16, f17, f18, f19, f20, f21, f22, f23, f24, f25, f26, f27, f28, f29, f30, f31, f32, f33, f34⟩ := p
  have hlast : omitEmpty "bios" encString f34 = omitEmpty "bios" encString f34 ++ [] := by
    simp
  simp +decide only [VirtualMachineParameters.encode, JSON.without,
    VirtualMachineParameters.members, dropKey_append, dropKey_single_ne,
    dropKey_single_eq, dropKey_omitEmpty_ne, List.nil_append,
    VirtualMachineParameters.decode, VirtualMachineParameters.decodeInto,
    VirtualMachineParameters.zero]
  rw [hlast]
  simp only [step_virtualization, step_serverGroupId, step_rootPassword, step_hostname, step_diskSpace, step_ram, step_burstableRAM, step_swapRAM, step_bandwidth, step_userId, step_cpu, step_cpuPercent, step_cpuCores, step_numIpv4, step_numInternalIps, step_numIpv6, step_numIpv6Subnets, step_enableVNC, step_vncPassword, step_shadowMemory, step_iso, step_bootOrder, step_enableTuntap, step_enableIOPriority, step_suspendIfBandwidthExceeded, step_osReinstallLimit, step_osId, step_mediaGroupId, step_nic, step_sshOptions, step_sshPublicKey, step_sshPrivateKey, step_existingSSHKeys, step_bios]
  rfl

theorem decode_without_ram (p : VirtualMachineParameters) :
    (VirtualMachineParameters.decode (p.encode.without "ram")).map
      (fun q => q.RAM) = some Int64.zero := by
  obtain ⟨f1, f2, f3, f4, f5, f6, f7, f8, f9, f10, f11, f12, f13, f14, f15, f16, f17, f18, f19, f20, f21, f22, f23, f24, f25, f26, f27, f28, f29, f30, f31, f32, f33, f34⟩ := p
  have hlast : omitEmpty "bios" encString f34 = omitEmpty "bios" encString f34 ++ [] := by
    simp
  simp +decide only [VirtualMachineParameters.encode, JSON.without,
    VirtualMachineParameters.members, dropKey_append, dropKey_single_ne,
    dropKey_single_eq, dropKey_omitEmpty_ne, List.nil_append,
    VirtualMachineParameters.decode, VirtualMachineParameters.decodeInto,
    VirtualMachineParameters.zero]
  rw [hlast]
  simp only [step_virtualization, step_serverGroupId, step_rootPassword, step_hostname, step_diskSpace, step_ram, step_burstableRAM, step_swapRAM, step_bandwidth, step_userId, step_cpu, step_cpuPercent, step_cpuCores, step_numIpv4, step_numInternalIps, step_numIpv6, step_numIpv6Subnets, step_enableVNC, step_vncPassword, step_shadowMemory, step_iso, step_bootOrder, step_enableTuntap, step_enableIOPriority, step_suspendIfBandwidthExceeded, step_osReinstallLimit, step_osId, step_mediaGroupId, step_nic, step_sshOptions, step_sshPublicKey, step_sshPrivateKey, step_existingSSHKeys, step_bios]
  rfl

theorem decode_without_bandwidth (p : VirtualMachineParameters) :
    (VirtualMachineParameters.decode (p.encode.without "bandwidth")).map
      (fun q => q.Bandwidth) = some Int64.zero := by
  obtain ⟨f1, f2, f3, f4, f5, f6, f7, f8, f9, f10, f11, f12, f13, f14, f15, f16, f17, f18, f19, f20, f21, f22, f23, f24, f25, f26, f27, f28, f29, f30, f31, f32, f33, f34⟩ := p
  have hlast : omitEmpty "bios" encString f34 = omitEmpty "bios" encString f34 ++ [] := by
    simp
  simp +decide only [VirtualMachineParameters.encode, JSON.without,
    VirtualMachineParameters.members, dropKey_append, dropKey_single_ne,
    dropKey_single_eq, dropKey_omitEmpty_ne, List.nil_append,
    VirtualMachineParameters.decode, VirtualMachineParameters.decodeInto,
    VirtualMachineParameters.zero]
  rw [hlast]
  simp only [step_virtualization, step_serverGroupId, step_rootPassword, step_hostname, step_diskSpace, step_ram, step_burstableRAM, step_swapRAM, step_bandwidth, step_userId, step_cpu, step_cpuPercent, step_cpuCores, step_numIpv4, step_numInternalIps, step_numIpv6, step_numIpv6Subnets, step_enableVNC, step_vncPassword, step_shadowMemory, step_iso, step_bootOrder, step_enableTuntap, step_enableIOPriority, step_suspendIfBandwidthExceeded, step_osReinstallLimit, step_osId, step_mediaGroupId, step_nic, step_sshOptions, step_sshPublicKey, step_sshPrivateKey, step_existingSSHKeys, step_bios]
  rfl

theorem decode_without_userId (p : VirtualMachineParameters) :
    (VirtualMachineParameters.decode (p.encode.without "userId")).map
      (fun q => q.UserId) = some Int64.zero := by
  obtain ⟨f1, f2, f3, f4, f5, f6, f7, f8, f9, f10, f11, f12, f13, f14, f15, f16, f17, f18, f19, f20, f21, f22, f23, f24, f25, f26, f27, f28, f29, f30, f31, f32, f33, f34⟩ := p
  have hlast : omitEmpty "bios" encString f34 = omitEmpty "bios" encString f34 ++ [] := by
    simp
  simp +decide only [VirtualMachineParameters.encode, JSON.without,
    VirtualMachineParameters.members, dropKey_append, dropKey_single_ne,
    dropKey_single_eq, dropKey_omitEmpty_ne, List.nil_append,
    VirtualMachineParameters.decode, VirtualMachineParameters.decodeInto,
    VirtualMachineParameters.zero]
  rw [hlast]
  simp only [step_virtualization, step_serverGroupId, step_rootPassword, step_hostname, step_diskSpace, step_ram, step_burstableRAM, step_swapRAM, step_bandwidth, step_userId, step_cpu, step_cpuPercent, step_cpuCores, step_numIpv4, step_numInternalIps, step_numIpv6, step_numIpv6Subnets, step_enableVNC, step_vncPassword, step_shadowMemory, step_iso, step_bootOrder, step_enableTuntap, step_enableIOPriority, step_suspendIfBandwidthExceeded, step_osReinstallLimit, step_osId, step_mediaGroupId, step_nic, step_sshOptions, step_sshPublicKey, step_sshPrivateKey, step_existingSSHKeys, step_bios]
  rfl

theorem decode_without_cpuCores (p : VirtualMachineParameters) :
    (VirtualMachineParameters.decode (p.encode.without "cpuCores")).map
      (fun q => q.CPUCores) = some Int64.zero := by
  obtain ⟨f1, f2, f3, f4, f5, f6, f7, f8, f9, f10, f11, f12, f13, f14, f15, f16, f17, f18, f19, f20, f21, f22, f23, f24, f25, f26, f27, f28, f29, f30, f31, f32, f33, f34⟩ := p
  have hlast : omitEmpty "bios" encString f34 = omitEmpty "bios" encString f34 ++ [] := by
    simp
  simp +decide only [VirtualMachineParameters.encode, JSON.without,
    VirtualMachineParameters.members, dropKey_append, dropKey_single_ne,
    dropKey_single_eq, dropKey_omitEmpty_ne, List.nil_append,
    VirtualMachineParameters.decode, VirtualMachineParameters.decodeInto,
    VirtualMachineParameters.zero]
  rw [hlast]
  simp only [step_virtualization, step_serverGroupId, step_rootPassword, step_hostname, step_diskSpace, step_ram, step_burstableRAM, step_swapRAM, step_bandwidth, step_userId, step_cpu, step_cpuPercent, step_cpuCores, step_numIpv4, step_numInternalIps, step_numIpv6, step_numIpv6Subnets, step_enableVNC, step_vncPassword, step_shadowMemory, step_iso, step_bootOrder, step_enableTuntap, step_enableIOPriority, step_suspendIfBandwidthExceeded, step_osReinstallLimit, step_osId, step_mediaGroupId, step_nic, step_sshOptions, step_sshPublicKey, step_sshPrivateKey, step_existingSSHKeys, step_bios]
  rfl

theorem decode_without_osId (p : VirtualMachineParameters) :
    (VirtualMachineParameters.decode (p.encode.without "osId")).map
      (fun q => q.OSId) = some Int64.zero := by
  obtain ⟨f1, f2, f3, f4, f5, f6, f7, f8, f9, f10, f11, f12, f13, f14, f15, f16, f17, f18, f19, f20, f21, f22, f23, f24, f25, f26, f27, f28, f29, f30, f31, f32, f33, f34⟩ := p
  have hlast : omitEmpty "bios" encString f34 = omitEmpty "bios" encString f34 ++ [] := by
    simp
  simp +decide only [VirtualMachineParameters.encode, JSON.without,
    VirtualMachineParameters.members, dropKey_append, dropKey_single_ne,
    dropKey_single_eq, dropKey_omitEmpty_ne, List.nil_append,
    VirtualMachineParameters.decode, VirtualMachineParameters.decodeInto,
    VirtualMachineParameters.zero]
  rw [hlast]
  simp only [step_virtualization, step_serverGroupId, step_rootPassword, step_hostname, step_diskSpace, step_ram, step_burstableRAM, step_swapRAM, step_bandwidth, step_userId, step_cpu, step_cpuPercent, step_cpuCores, step_numIpv4, step_numInternalIps, step_numIpv6, step_numIpv6Subnets, step_enableVNC, step_vncPassword, step_shadowMemory, step_iso, step_bootOrder, step_enableTuntap, step_enableIOPriority, step_suspendIfBandwidthExceeded, step_osReinstallLimit, step_osId, step_mediaGroupId, step_nic, step_sshOptions, step_sshPublicKey, step_sshPrivateKey, step_existingSSHKeys, step_bios]
  rfl
/-! ## The list codec -/

theorem omitEmptyString_empty (k : String) : omitEmptyString k [] = [] := rfl

theorem omitEmptyString_ne (k : String) (s : GoString) (h : s ≠ []) :
    omitEmptyString k s = [(k, encString s)] := by
  have : s.length ≠ 0 := fun h0 => h (List.length_eq_zero.mp h0)
  simp [omitEmptyString, this]

theorem getKey_omitEmptyString_ne (k k' : String) (s : GoString) (h : k' ≠ k) :
    getKey k (omitEmptyString k' s) = none := by
  unfold omitEmptyString
  split
  · rfl
  · simp [getKey, h]

theorem ListMeta.decodeMetaMembers_append (a b : Members) (m : ListMeta) :
    ListMeta.decodeMembers (a ++ b) m
      = (ListMeta.decodeMembers a m).bind (ListMeta.decodeMembers b) := by
  induction a generalizing m with
  | nil => rfl
  | cons kv a ih =>
    obtain ⟨k, v⟩ := kv
    simp only [List.cons_append, ListMeta.decodeMembers]
    cases m.decodeMember k v with
    | none => rfl
    | some q => exact ih q

theorem ListMeta.decode_selfLink (s : GoString) (m : ListMeta) (h : m.SelfLink = []) :
    ListMeta.decodeMembers (omitEmptyString "selfLink" s) m
      = some { m with SelfLink := roundString s } := by
  by_cases hs : s = []
  · subst hs
    cases m
    simp_all [omitEmptyString_empty, ListMeta.decodeMembers, roundString, goBytes,
      toValidUTF8, coerceRunes, encodeRunes]
  · simp +decide [omitEmptyString_ne _ _ hs, ListMeta.decodeMembers, ListMeta.decodeMember,
      decString_enc]

theorem ListMeta.decode_resourceVersion (s : GoString) (m : ListMeta)
    (h : m.ResourceVersion = []) :
    ListMeta.decodeMembers (omitEmptyString "resourceVersion" s) m
      = some { m with ResourceVersion := roundString s } := by
  by_cases hs : s = []
  · subst hs
    cases m
    simp_all [omitEmptyString_empty, ListMeta.decodeMembers, roundString, goBytes,
      toValidUTF8, coerceRunes, encodeRunes]
  · simp +decide [omitEmptyString_ne _ _ hs, ListMeta.decodeMembers, ListMeta.decodeMember,
      decString_enc]

theorem ListMeta.decode_continue (s : GoString) (m : ListMeta) (h : m.Continue = []) :
    ListMeta.decodeMembers (omitEmptyString "continue" s) m
      = some { m with Continue := roundString s } := by
  by_cases hs : s = []
  · subst hs
    cases m
    simp_all [omitEmptyString_empty, ListMeta.decodeMembers, roundString, goBytes,
      toValidUTF8, coerceRunes, encodeRunes]
  · simp +decide [omitEmptyString_ne _ _ hs, ListMeta.decodeMembers, ListMeta.decodeMember,
      decString_enc]

theorem ListMeta.decode_remainingItemCount (o : Option Int64) (m : ListMeta)
    (h : m.RemainingItemCount = none) :
    ListMeta.decodeMembers (omitEmpty "remainingItemCount" encInt64 o) m
      = some { m with RemainingItemCount := o } := by
  cases o with
  | none =>
    cases m
    simp_all [omitEmpty, ListMeta.decodeMembers]
  | some a =>
    simp +decide [omitEmpty, ListMeta.decodeMembers, ListMeta.decodeMember, decPtrInt64_enc]

/-- Decoding the encoding of a `ListMeta` into a fresh one succeeds. -/
theorem ListMeta.decodeMetaMembers_members (m : ListMeta) :
    ListMeta.decodeMembers m.members
      { SelfLink := [], ResourceVersion := [], Continue := [], RemainingItemCount := none }
      = some { SelfLink := roundString m.SelfLink,
               ResourceVersion := roundString m.ResourceVersion,
               Continue := roundString m.Continue,
               RemainingItemCount := m.RemainingItemCount } := by
  obtain ⟨a, b, c, d⟩ := m
  simp only [ListMeta.members, ListMeta.decodeMetaMembers_append]
  rw [ListMeta.decode_selfLink _ _ rfl, Option.some_bind,
    ListMeta.decode_resourceVersion _ _ rfl, Option.some_bind,
    ListMeta.decode_continue _ _ rfl, Option.some_bind,
    ListMeta.decode_remainingItemCount _ _ rfl]

theorem VirtualMachineList.decodeListMembers_append {VM : Type}
    (dec : VM → JSON → Option VM) (zero : VM)
    (a b : Members) (l : VirtualMachineList VM) :
    VirtualMachineList.decodeMembers dec zero (a ++ b) l
      = (VirtualMachineList.decodeMembers dec zero a l).bind
          (VirtualMachineList.decodeMembers dec zero b) := by
  induction a generalizing l with
  | nil => rfl
  | cons kv a ih =>
    obtain ⟨k, v⟩ := kv
    simp only [List.cons_append, VirtualMachineList.decodeMembers]
    cases l.decodeMember dec zero k v with
    | none => rfl
    | some q => exact ih q

theorem VirtualMachineList.decode_kind {VM : Type} (dec : VM → JSON → Option VM)
    (zero : VM) (s : GoString) (l : VirtualMachineList VM) (h : l.TypeMeta.Kind = []) :
    VirtualMachineList.decodeMembers dec zero (omitEmptyString "kind" s) l
      = some { l with TypeMeta := { l.TypeMeta with Kind := roundString s } } := by
  by_cases hs : s = []
  · subst hs
    obtain ⟨⟨k, a⟩, m, i⟩ := l
    simp_all [omitEmptyString_empty, VirtualMachineList.decodeMembers, roundString, goBytes,
      toValidUTF8, coerceRunes, encodeRunes]
  · simp +decide [omitEmptyString_ne _ _ hs, VirtualMachineList.decodeMembers,
      VirtualMachineList.decodeMember, decString_enc]

theorem VirtualMachineList.decode_apiVersion {VM : Type} (dec : VM → JSON → Option VM)
    (zero : VM) (s : GoString) (l : VirtualMachineList VM)
    (h : l.TypeMeta.APIVersion = []) :
    VirtualMachineList.decodeMembers dec zero (omitEmptyString "apiVersion" s) l
      = some { l with TypeMeta := { l.TypeMeta with APIVersion := roundString s } } := by
  by_cases hs : s = []
  · subst hs
    obtain ⟨⟨k, a⟩, m, i⟩ := l
    simp_all [omitEmptyString_empty, VirtualMachineList.decodeMembers, roundString, goBytes,
      toValidUTF8, coerceRunes, encodeRunes]
  · simp +decide [omitEmptyString_ne _ _ hs, VirtualMachineList.decodeMembers,
      VirtualMachineList.decodeMember, decString_enc]

theorem decSlice_encSlice_empty {VM : Type} (enc : VM → JSON) (dec : VM → JSON → Option VM)
    (zero : VM) (items : Slice VM) (h : items.len = 0) :
    decSlice dec zero none (encSlice enc items) = some items := by
  cases items with
  | none => rfl
  | some xs =>
    cases xs with
    | nil => rfl
    | cons x xs => simp [Slice.len] at h

/-- Decoding the encoding of a list without items into a fresh list succeeds
and leaves `Items` nil or non-nil as it was. -/
theorem VirtualMachineList.decodeListMembers_members {VM : Type} (enc : VM → JSON)
    (dec : VM → JSON → Option VM) (zero : VM) (l : VirtualMachineList VM)
    (h : l.Items.len = 0) :
    VirtualMachineList.decodeMembers dec zero (l.members enc) VirtualMachineList.zero
      = some { TypeMeta := { Kind := roundString l.TypeMeta.Kind,
                             APIVersion := roundString l.TypeMeta.APIVersion },
               ListMeta := { SelfLink := roundString l.ListMeta.SelfLink,
                             ResourceVersion := roundString l.ListMeta.ResourceVersion,
                             Continue := roundString l.ListMeta.Continue,
                             RemainingItemCount := l.ListMeta.RemainingItemCount },
               Items := l.Items } := by
  obtain ⟨⟨k, a⟩, m, items⟩ := l
  simp only [VirtualMachineList.members, VirtualMachineList.decodeListMembers_append,
    VirtualMachineList.zero]
  rw [VirtualMachineList.decode_kind _ _ _ _ rfl, Option.some_bind,
    VirtualMachineList.decode_apiVersion _ _ _ _ rfl, Option.some_bind]
  simp +decide [VirtualMachineList.decodeMembers, VirtualMachineList.decodeMember,
    ListMeta.decodeInto, ListMeta.decodeMetaMembers_members,
    decSlice_encSlice_empty enc dec zero items h]

/-! ## Registration -/

theorem Scheme.add_of_knows (s : Scheme) (gvk : GroupVersionKind) (t : GoType)
    (h : s.Knows gvk t) : s.AddKnownTypeWithName gvk t = some s := by
  obtain ⟨hv, hg, hm⟩ := h
  obtain ⟨g2t, t2g⟩ := s
  have hupd : Function.update g2t gvk (some t) = g2t := by
    rw [← hg]
    exact Function.update_eq_self gvk g2t
  simp only [Scheme.AddKnownTypeWithName, if_neg hv]
  simp only at hg hm
  simp [hg, hm, hupd]

theorem Scheme.add_some (s s1 : Scheme) (gvk : GroupVersionKind) (t : GoType)
    (h : s.AddKnownTypeWithName gvk t = some s1) :
    gvk.Version.length ≠ 0 ∧ (s.gvkToType gvk = none ∨ s.gvkToType gvk = some t) ∧
    s1.gvkToType = Function.update s.gvkToType gvk (some t) ∧
    s1.typeToGVK =
      if gvk ∈ s.typeToGVK t then s.typeToGVK
      else Function.update s.typeToGVK t (s.typeToGVK t ++ [gvk]) := by
  unfold Scheme.AddKnownTypeWithName at h
  by_cases hv : gvk.Version.length = 0
  · simp [hv] at h
  · rw [if_neg hv] at h
    cases hg : s.gvkToType gvk with
    | none =>
      rw [hg] at h
      by_cases hm : gvk ∈ s.typeToGVK t
      · simp [hm] at h
        subst h
        simp [hv, hm]
      · simp [hm] at h
        subst h
        simp [hv, hm]
    | some oldT =>
      rw [hg] at h
      by_cases ht : oldT = t
      · subst ht
        by_cases hm : gvk ∈ s.typeToGVK oldT
        · simp [hm] at h
          subst h
          simp [hv, hm]
        · simp [hm] at h
          subst h
          simp [hv, hm]
      · simp [ht] at h

theorem Scheme.knows_after_add (s s1 : Scheme) (gvk : GroupVersionKind) (t : GoType)
    (h : s.AddKnownTypeWithName gvk t = some s1) : s1.Knows gvk t := by
  obtain ⟨hv, -, hg, ht⟩ := Scheme.add_some s s1 gvk t h
  refine ⟨hv, ?_, ?_⟩
  · rw [hg]
    simp
  · rw [ht]
    by_cases hm : gvk ∈ s.typeToGVK t
    · simp [hm]
    · simp [hm]

theorem Scheme.knows_mono (s s1 : Scheme) (gvk g : GroupVersionKind) (t u : GoType)
    (h : s.AddKnownTypeWithName gvk t = some s1) (hk : s.Knows g u) : s1.Knows g u := by
  obtain ⟨-, hold, hg, ht⟩ := Scheme.add_some s s1 gvk t h
  obtain ⟨hv, hgu, hmu⟩ := hk
  refine ⟨hv, ?_, ?_⟩
  · rw [hg]
    by_cases heq : g = gvk
    · subst heq
      rw [hgu] at hold
      rcases hold with hold | hold
      · cases hold
      · simp [hold]
    · simp [Function.update_noteq heq, hgu]
  · rw [ht]
    by_cases hm : gvk ∈ s.typeToGVK t
    · simpa [hm] using hmu
    · simp only [hm, if_false]
      by_cases hut : u = t
      · subst hut
        simp [hmu]
      · simpa [Function.update_noteq hut] using hmu

theorem Scheme.addAll_append (a b : List (GroupVersionKind × GoType)) (s : Scheme) :
    Scheme.addAll (a ++ b) s = (Scheme.addAll a s).bind (Scheme.addAll b) := by
  induction a generalizing s with
  | nil => rfl
  | cons x a ih =>
    obtain ⟨g, t⟩ := x
    simp only [List.cons_append, Scheme.addAll]
    cases s.AddKnownTypeWithName g t with
    | none => rfl
    | some s1 => exact ih s1

theorem Scheme.addAll_knows (l : List (GroupVersionKind × GoType)) (s s1 : Scheme)
    (h : Scheme.addAll l s = some s1) :
    (∀ x ∈ l, s1.Knows x.1 x.2) ∧ (∀ g u, s.Knows g u → s1.Knows g u) := by
  induction l generalizing s with
  | nil =>
    simp only [Scheme.addAll, Option.some.injEq] at h
    subst h
    simp
  | cons x l ih =>
    obtain ⟨g, t⟩ := x
    simp only [Scheme.addAll] at h
    cases ha : s.AddKnownTypeWithName g t with
    | none => simp [ha] at h
    | some s2 =>
      rw [ha] at h
      obtain ⟨h1, h2⟩ := ih s2 h
      refine ⟨?_, ?_⟩
      · intro x hx
        rcases List.mem_cons.mp hx with hx | hx
        · subst hx
          exact h2 _ _ (Scheme.knows_after_add s s2 g t ha)
        · exact h1 x hx
      · intro g2 u hk
        exact h2 _ _ (Scheme.knows_mono s s2 g g2 t u ha hk)

theorem Scheme.addAll_of_knows (l : List (GroupVersionKind × GoType)) (s : Scheme)
    (h : ∀ x ∈ l, s.Knows x.1 x.2) : Scheme.addAll l s = some s := by
  induction l with
  | nil => rfl
  | cons x l ih =>
    obtain ⟨g, t⟩ := x
    have hx : s.Knows g t := h (g, t) (List.mem_cons_self _ _)
    simp only [Scheme.addAll, Scheme.add_of_knows s g t hx]
    exact ih (fun y hy => h y (List.mem_cons_of_mem _ hy))

theorem registered_eq_addAll (metaKinds : GroupVersion → List (GroupVersionKind × GoType))
    (gv : GroupVersion) (objects : List GoType) (s : Scheme) :
    registered metaKinds gv objects s
      = Scheme.addAll (objects.map (fun t => (gv.WithKind t.Name, t)) ++ metaKinds gv) s := by
  rw [Scheme.addAll_append]
  simp only [registered, Scheme.AddKnownTypes]
  cases Scheme.addAll (objects.map (fun t => (gv.WithKind t.Name, t))) s <;> rfl

theorem runAll_eq_addAll (metaKinds : GroupVersion → List (GroupVersionKind × GoType))
    (gv : GroupVersion) (fs : List (List GoType)) (s : Scheme) :
    runAll metaKinds gv fs s = Scheme.addAll (allCalls metaKinds gv fs) s := by
  induction fs generalizing s with
  | nil => rfl
  | cons objects rest ih =>
    simp only [runAll, allCalls]
    rw [Scheme.addAll_append, ← registered_eq_addAll]
    cases registered metaKinds gv objects s with
    | none => rfl
    | some s1 => exact ih s1

theorem allCalls_append (metaKinds : GroupVersion → List (GroupVersionKind × GoType))
    (gv : GroupVersion) (a b : List (List GoType)) :
    allCalls metaKinds gv (a ++ b) = allCalls metaKinds gv a ++ allCalls metaKinds gv b := by
  induction a with
  | nil => rfl
  | cons x a ih => simp [allCalls, ih]

/-- A second run of the same calls on the scheme they produced changes nothing. -/
theorem Scheme.addAll_idem (l : List (GroupVersionKind × GoType)) (s s1 : Scheme)
    (h : Scheme.addAll l s = some s1) : Scheme.addAll l s1 = some s1 :=
  Scheme.addAll_of_knows l s1 (Scheme.addAll_knows l s s1 h).1

/-- Running calls that a prefix of the run already made changes nothing. -/
theorem Scheme.addAll_repeat (a b : List (GroupVersionKind × GoType)) (s : Scheme) :
    Scheme.addAll ((a ++ b) ++ b) s = Scheme.addAll (a ++ b) s := by
  rw [Scheme.addAll_append (a ++ b) b]
  cases h : Scheme.addAll (a ++ b) s with
  | none => rfl
  | some s1 =>
    have hk := (Scheme.addAll_knows (a ++ b) s s1 h).1
    exact Scheme.addAll_of_knows b s1 (fun x hx => hk x (List.mem_append_right _ hx))

/-! ## Decoding an encoding -/

/-- Decoding the encoding of `p` succeeds; the result is `p` as the codec
preserves it. -/
theorem decode_encode (p : VirtualMachineParameters) :
    VirtualMachineParameters.decode p.encode = some p.afterRoundTrip :=
  decodeMembers_members p

theorem keysAfterRoundTrip_of_valid (o : Option (Slice GoString)) (hv : validKeys o = true)
    (h : o ≠ some none) : keysAfterRoundTrip o = o := by
  cases o with
  | none => rfl
  | some s =>
    cases s with
    | none => exact absurd rfl h
    | some l => simp [keysAfterRoundTrip, map_roundString_of_valid l hv]

/-- The codec preserves a struct whose strings are valid UTF-8 and whose
`existingSSHKeys` is not a pointer at the nil slice. -/
theorem afterRoundTrip_of_valid (p : VirtualMachineParameters) (hv : p.ValidStrings)
    (hk : p.ExistingKeys ≠ some none) : p.afterRoundTrip = p := by
  obtain ⟨f1, f2, f3, f4, f5, f6, f7, f8, f9, f10, f11, f12, f13, f14, f15, f16, f17, f18, f19, f20, f21, f22, f23, f24, f25, f26, f27, f28, f29, f30, f31, f32, f33, f34⟩ := p
  obtain ⟨v1, v3, v4, v19, v21, v28, v29, v30, v31, v33, v34⟩ := hv
  simp only [VirtualMachineParameters.afterRoundTrip]
  rw [roundString_of_valid _ v1, roundString_of_valid _ v3, roundString_of_valid _ v4, optMap_roundString_of_valid _ v19, optMap_roundString_of_valid _ v21, optMap_roundString_of_valid _ v28, optMap_roundString_of_valid _ v29, optMap_roundString_of_valid _ v30, optMap_roundString_of_valid _ v31, optMap_roundString_of_valid _ v34, keysAfterRoundTrip_of_valid _ v33 hk]

/-- The decoder matches keys without regard to case. -/
theorem decode_folded_key :
    VirtualMachineParameters.decode (JSON.obj [("HOSTNAME", JSON.str "vm1")])
      = some { VirtualMachineParameters.zero with Hostname := gostr "vm1" } := by
  decide

/-! ## The claims -/

/-- C1, as amended: for every parameter struct whose strings are valid UTF-8
and whose `existingSSHKeys` is unset or points at a non-nil sequence (the empty
one included), decoding the tagged encoding succeeds and yields the struct
itself, whatever its other fields hold. -/
theorem roundTrip (p : VirtualMachineParameters) (hv : p.ValidStrings)
    (hk : p.ExistingKeys ≠ some none) :
    VirtualMachineParameters.decode p.encode = some p := by
  rw [decode_encode, afterRoundTrip_of_valid p hv hk]

/-- C1, the scenario: the struct that sets only the nine required fields
decodes back to itself, every optional field still unset. -/
theorem roundTrip_witness :
    kvmExample.ValidStrings ∧ kvmExample.ExistingKeys ≠ some none ∧
    VirtualMachineParameters.decode kvmExample.encode = some kvmExample :=
  ⟨by decide, by decide, roundTrip kvmExample (by decide) (by decide)⟩

/-- C1 fails as stated: with `existingSSHKeys` pointing at the nil slice the
encoding decodes to a struct whose `existingSSHKeys` is unset, and with a
hostname that is not valid UTF-8 it decodes to a struct with another
hostname; neither result is the struct that was encoded. -/
theorem roundTrip_fails :
    VirtualMachineParameters.decode nilKeysExample.encode = some kvmExample ∧
    VirtualMachineParameters.decode nilKeysExample.encode ≠ some nilKeysExample ∧
    VirtualMachineParameters.decode badHostExample.encode
      = some { kvmExample with Hostname := [0x61, 0xEF, 0xBF, 0xBD, 0x62] } ∧
    VirtualMachineParameters.decode badHostExample.encode ≠ some badHostExample := by
  rw [decode_encode, decode_encode]
  decide

/-- C2, as amended: for each of the 24 optional scalar fields the encoding has
the key exactly when the field is set, and the key then carries the value of
the field, never `null`: a number, a boolean, or the string coerced to valid
UTF-8, which is the text of the string itself when that is valid UTF-8. For
`existingSSHKeys` the key is present exactly when the field is set and
carries the array of the keys, or `null` when the field points at the nil
slice. -/
theorem optional_keys (p : VirtualMachineParameters) :
    (p.encode.lookup "serverGroupId" = p.ServerGroupId.map (fun n => JSON.num n.val) ∧
    p.encode.lookup "burstableRAM" = p.BurstableRAM.map (fun n => JSON.num n.val) ∧
    p.encode.lookup "swapRAM" = p.SwapRAM.map (fun n => JSON.num n.val) ∧
    p.encode.lookup "cpu" = p.CPU.map (fun n => JSON.num n.val) ∧
    p.encode.lookup "cpuPercent" = p.CPUPercent.map (fun n => JSON.num n.val) ∧
    p.encode.lookup "numIpv4" = p.IPv4.map (fun n => JSON.num n.val) ∧
    p.encode.lookup "numInternalIps" = p.IPInternal.map (fun n => JSON.num n.val) ∧
    p.encode.lookup "numIpv6" = p.IPv6.map (fun n => JSON.num n.val) ∧
    p.encode.lookup "numIpv6Subnets" = p.Ipv6Subnet.map (fun n => JSON.num n.val) ∧
    p.encode.lookup "enableVNC" = p.EnableVNC.map JSON.bool ∧
    p.encode.lookup "vncPassword" = p.VNCPassword.map (fun s => JSON.str (toValidUTF8 s)) ∧
    p.encode.lookup "shadowMemory" = p.ShadowMemory.map (fun n => JSON.num n.val) ∧
    p.encode.lookup "iso" = p.ISO.map (fun s => JSON.str (toValidUTF8 s)) ∧
    p.encode.lookup "bootOrder" = p.BootOrder.map (fun n => JSON.num n.val) ∧
    p.encode.lookup "enableTuntap" = p.EnableTuntap.map (fun n => JSON.num n.val) ∧
    p.encode.lookup "enableIOPriority" = p.EnableIOPriority.map (fun n => JSON.num n.val) ∧
    p.encode.lookup "suspendIfBandwidthExceeded" = p.SuspendIfBandwidthExceeded.map JSON.bool ∧
    p.encode.lookup "osReinstallLimit" = p.OsReinstallLimit.map (fun n => JSON.num n.val) ∧
    p.encode.lookup "mediaGroupId" = p.MediaGroupId.map (fun s => JSON.str (toValidUTF8 s)) ∧
    p.encode.lookup "nic" = p.NIC.map (fun s => JSON.str (toValidUTF8 s)) ∧
    p.encode.lookup "sshOptions" = p.SSHOptions.map (fun s => JSON.str (toValidUTF8 s)) ∧
    p.encode.lookup "sshPublicKey" = p.SSHPublicKey.map (fun s => JSON.str (toValidUTF8 s)) ∧
    p.encode.lookup "sshPrivateKey" = p.SSHPrivateKey.map (fun n => JSON.num n.val) ∧
    p.encode.lookup "existingSSHKeys" = (match p.ExistingKeys with
      | none => none
      | some none => some JSON.null
      | some (some xs) => some (JSON.arr (xs.map (fun s => JSON.str (toValidUTF8 s))))) ∧
    p.encode.lookup "bios" = p.BIOS.map (fun s => JSON.str (toValidUTF8 s))) ∧
    (p.ValidStrings →
      p.VNCPassword.map (fun s => goBytes (toValidUTF8 s)) = p.VNCPassword ∧
      p.ISO.map (fun s => goBytes (toValidUTF8 s)) = p.ISO ∧
      p.MediaGroupId.map (fun s => goBytes (toValidUTF8 s)) = p.MediaGroupId ∧
      p.NIC.map (fun s => goBytes (toValidUTF8 s)) = p.NIC ∧
      p.SSHOptions.map (fun s => goBytes (toValidUTF8 s)) = p.SSHOptions ∧
      p.SSHPublicKey.map (fun s => goBytes (toValidUTF8 s)) = p.SSHPublicKey ∧
      p.BIOS.map (fun s => goBytes (toValidUTF8 s)) = p.BIOS ∧
      (∀ xs, p.ExistingKeys = some (some xs) → xs.map (fun s => goBytes (toValidUTF8 s)) = xs)) := by
  refine ⟨?_, ?_⟩
  · have hk : getKey "existingSSHKeys" p.members = p.ExistingKeys.map encStrings := by
      simp [VirtualMachineParameters.members, getKey_append, getKey_cons, getKey_omitEmpty]
    have hm : p.ExistingKeys.map encStrings = (match p.ExistingKeys with
        | none => none
        | some none => some JSON.null
        | some (some xs) => some (JSON.arr (xs.map (fun s => JSON.str (toValidUTF8 s))))) := by
      cases p.ExistingKeys with
      | none => rfl
      | some s => cases s <;> rfl
    simp only [VirtualMachineParameters.encode, JSON.lookup]
    rw [← hm, hk]
    have he : encString = fun s => JSON.str (toValidUTF8 s) := rfl
    simp [VirtualMachineParameters.members, getKey_append, getKey_cons, getKey_omitEmpty,
      encInt64, he, Function.comp_def]
  · intro hv
    refine ⟨?_, ?_, ?_, ?_, ?_, ?_, ?_, ?_⟩
    · exact optMap_roundString_of_valid _ (hv.2.2.2.1)
    · exact optMap_roundString_of_valid _ (hv.2.2.2.2.1)
    · exact optMap_roundString_of_valid _ (hv.2.2.2.2.2.1)
    · exact optMap_roundString_of_valid _ (hv.2.2.2.2.2.2.1)
    · exact optMap_roundString_of_valid _ (hv.2.2.2.2.2.2.2.1)
    · exact optMap_roundString_of_valid _ (hv.2.2.2.2.2.2.2.2.1)
    · exact optMap_roundString_of_valid _ (hv.2.2.2.2.2.2.2.2.2.2)
    · intro xs hx
      have hvk := hv.2.2.2.2.2.2.2.2.2.1
      rw [hx] at hvk
      exact map_roundString_of_valid xs hvk

/-- C2, an instance with valid strings: a set VNC password is carried as its
own text. -/
theorem optional_keys_witness :
    ({ kvmExample with VNCPassword := some (gostr "secret") } :
      VirtualMachineParameters).ValidStrings ∧
    (some (gostr "secret")).map (fun s => goBytes (toValidUTF8 s)) = some (gostr "secret") :=
  ⟨by decide,
    ((optional_keys { kvmExample with VNCPassword := some (gostr "secret") }).2
      (by decide)).1⟩

/-- C2 fails as stated: `existingSSHKeys` set to the nil slice is a set field
whose key is present in the encoding with the value `null`, and a set VNC
password that is the byte 0xFF is carried as the text U+FFFD, which is not the
value of the field. -/
theorem optional_keys_fail :
    nilKeysExample.ExistingKeys ≠ none ∧
    nilKeysExample.encode.lookup "existingSSHKeys" = some JSON.null ∧
    badPasswordExample.encode.lookup "vncPassword"
      = some (JSON.str (String.mk [Char.ofNat 0xFFFD])) ∧
    some (goBytes (String.mk [Char.ofNat 0xFFFD])) ≠ badPasswordExample.VNCPassword :=
  ⟨by decide, rfl, rfl, by decide⟩

/-- C10, as amended: the encoding of every parameter struct has the nine
required keys, zero and the empty string included: an integer key with the
value of the struct, a string key with the value coerced to valid UTF-8, which
is the text of the value itself when that is valid UTF-8. The zero value has
every optional field unset and its encoding has exactly the nine required
members. -/
theorem required_keys (p : VirtualMachineParameters) :
    (p.encode.lookup "virtualization" = some (JSON.str (toValidUTF8 p.Virtualization)) ∧
    p.encode.lookup "rootPassword" = some (JSON.str (toValidUTF8 p.RootPassword)) ∧
    p.encode.lookup "hostname" = some (JSON.str (toValidUTF8 p.Hostname)) ∧
    p.encode.lookup "diskSpace" = some (JSON.num p.DiskSpace.val) ∧
    p.encode.lookup "ram" = some (JSON.num p.RAM.val) ∧
    p.encode.lookup "bandwidth" = some (JSON.num p.Bandwidth.val) ∧
    p.encode.lookup "userId" = some (JSON.num p.UserId.val) ∧
    p.encode.lookup "cpuCores" = some (JSON.num p.CPUCores.val) ∧
    p.encode.lookup "osId" = some (JSON.num p.OSId.val)) ∧
    (p.ValidStrings →
      goBytes (toValidUTF8 p.Virtualization) = p.Virtualization ∧
      goBytes (toValidUTF8 p.RootPassword) = p.RootPassword ∧
      goBytes (toValidUTF8 p.Hostname) = p.Hostname) ∧
    (VirtualMachineParameters.zero.ServerGroupId = none ∧
    VirtualMachineParameters.zero.BurstableRAM = none ∧
    VirtualMachineParameters.zero.SwapRAM = none ∧
    VirtualMachineParameters.zero.CPU = none ∧
    VirtualMachineParameters.zero.CPUPercent = none ∧
    VirtualMachineParameters.zero.IPv4 = none ∧
    VirtualMachineParameters.zero.IPInternal = none ∧
    VirtualMachineParameters.zero.IPv6 = none ∧
    VirtualMachineParameters.zero.Ipv6Subnet = none ∧
    VirtualMachineParameters.zero.EnableVNC = none ∧
    VirtualMachineParameters.zero.VNCPassword = none ∧
    VirtualMachineParameters.zero.ShadowMemory = none ∧
    VirtualMachineParameters.zero.ISO = none ∧
    VirtualMachineParameters.zero.BootOrder = none ∧
    VirtualMachineParameters.zero.EnableTuntap = none ∧
    VirtualMachineParameters.zero.EnableIOPriority = none ∧
    VirtualMachineParameters.zero.SuspendIfBandwidthExceeded = none ∧
    VirtualMachineParameters.zero.OsReinstallLimit = none ∧
    VirtualMachineParameters.zero.MediaGroupId = none ∧
    VirtualMachineParameters.zero.NIC = none ∧
    VirtualMachineParameters.zero.SSHOptions = none ∧
    VirtualMachineParameters.zero.SSHPublicKey = none ∧
    VirtualMachineParameters.zero.SSHPrivateKey = none ∧
    VirtualMachineParameters.zero.ExistingKeys = none ∧
    VirtualMachineParameters.zero.BIOS = none) ∧
    VirtualMachineParameters.zero.encode = JSON.obj
      [("virtualization", JSON.str ""),
       ("rootPassword", JSON.str ""),
       ("hostname", JSON.str ""),
       ("diskSpace", JSON.num 0),
       ("ram", JSON.num 0),
       ("bandwidth", JSON.num 0),
       ("userId", JSON.num 0),
       ("cpuCores", JSON.num 0),
       ("osId", JSON.num 0)] := by
  refine ⟨?_, ?_, ?_, rfl⟩
  · simp [VirtualMachineParameters.encode, JSON.lookup, VirtualMachineParameters.members,
      getKey_append, getKey_cons, getKey_omitEmpty, encInt64, encString]
  · intro hv
    exact ⟨roundString_of_valid _ (hv.1), roundString_of_valid _ (hv.2.1), roundString_of_valid _ (hv.2.2.1)⟩
  · simp [VirtualMachineParameters.zero]

/-- C10, an instance with valid strings: the hostname of the scenario is
carried as its own text. -/
theorem required_keys_witness :
    kvmExample.ValidStrings ∧
    kvmExample.encode.lookup "hostname" = some (JSON.str "vm1") ∧
    goBytes (toValidUTF8 kvmExample.Hostname) = kvmExample.Hostname :=
  ⟨by decide, rfl, ((required_keys kvmExample).2.1 (by decide)).2.2⟩

/-- C10 fails as stated: the hostname with the bytes `a`, 0xFF, `b` is
emitted as the text `a`, U+FFFD, `b`, which is not the value of the field. -/
theorem required_keys_fail :
    badHostExample.encode.lookup "hostname" = some (JSON.str replacedText) ∧
    goBytes replacedText ≠ badHostExample.Hostname :=
  ⟨rfl, by decide⟩

/-- C3: the four identity values are functions of the type name, the group
and the version alone: the kind is the name of the struct, the group kind is
the string form of group and kind, the kind API version is the kind, a dot and
the string form of the group version, and the group version kind is the
triple of group, version and kind. -/
theorem identity_values (g v : String) :
    VirtualMachineKind = "VirtualMachine" ∧
    VirtualMachineGroupKind g = GroupKind.String { Group := g, Kind := "VirtualMachine" } ∧
    VirtualMachineKindAPIVersion { Group := g, Version := v }
      = "VirtualMachine" ++ "." ++ GroupVersion.String { Group := g, Version := v } ∧
    VirtualMachineGroupVersionKind { Group := g, Version := v }
      = { Group := g, Version := v, Kind := "VirtualMachine" } ∧
    VirtualMachineGroupKind exampleGroupVersion.Group
      = "VirtualMachine.compute.virtono.crossplane.io" ∧
    VirtualMachineKindAPIVersion exampleGroupVersion
      = "VirtualMachine.compute.virtono.crossplane.io/v1alpha1" :=
  ⟨rfl, rfl, rfl, rfl, by decide, by decide⟩

/-- C4, the code at the failing input: the struct has no check that ties
`existingSSHKeys` to `sshOptions`. A document that asks for `use_ssh_keys` and
gives no keys decodes without error into a value with `existingSSHKeys`
unset, and the value that asks for `use_ssh_keys` with an empty list of keys
is encoded and decoded without error. -/
theorem sshKeys_not_checked :
    VirtualMachineParameters.decode (JSON.obj [("sshOptions", JSON.str "use_ssh_keys")])
      = some { VirtualMachineParameters.zero with SSHOptions := some (gostr "use_ssh_keys") } ∧
    VirtualMachineParameters.decode useKeysExample.encode = some useKeysExample ∧
    VirtualMachineParameters.decode useKeysUnsetExample.encode = some useKeysUnsetExample := by
  rw [decode_encode, decode_encode]
  decide

/-- C7, the code at the failing input: the struct has no check of the domain
of `bios`. A document with `bios` set to `coreboot` decodes without error, and
the value with that `bios` is encoded and decoded without error. -/
theorem bios_not_checked :
    VirtualMachineParameters.decode (JSON.obj [("bios", JSON.str "coreboot")])
      = some { VirtualMachineParameters.zero with BIOS := some (gostr "coreboot") } ∧
    VirtualMachineParameters.decode biosExample.encode = some biosExample := by
  rw [decode_encode]
  decide

/-- C6, as amended: decoding into a zero-value struct, keys matched without
regard to case, does not reject a document that lacks a required key. Whenever
an object decodes, each required field that no key of the object selects holds
the zero value of its type (the empty string or 0); and while the encoding of
any struct decodes to a struct that holds the value of a required field, the
same encoding with the member of that field dropped still decodes, to a struct
whose field holds the zero value. -/
theorem required_absent (kvs : Members) (q p : VirtualMachineParameters)
    (h : VirtualMachineParameters.decode (JSON.obj kvs) = some q) :
    ((lacksKey "virtualization" kvs → q.Virtualization = []) ∧
     (lacksKey "rootPassword" kvs → q.RootPassword = []) ∧
     (lacksKey "hostname" kvs → q.Hostname = []) ∧
     (lacksKey "diskSpace" kvs → q.DiskSpace = Int64.zero) ∧
     (lacksKey "ram" kvs → q.RAM = Int64.zero) ∧
     (lacksKey "bandwidth" kvs → q.Bandwidth = Int64.zero) ∧
     (lacksKey "userId" kvs → q.UserId = Int64.zero) ∧
     (lacksKey "cpuCores" kvs → q.CPUCores = Int64.zero) ∧
     (lacksKey "osId" kvs → q.OSId = Int64.zero)) ∧
    ((VirtualMachineParameters.decode p.encode).map (fun r => r.Virtualization)
        = some (goBytes (toValidUTF8 p.Virtualization)) ∧
     (VirtualMachineParameters.decode (p.encode.without "virtualization")).map
        (fun r => r.Virtualization) = some [] ∧
     (VirtualMachineParameters.decode p.encode).map (fun r => r.RootPassword)
        = some (goBytes (toValidUTF8 p.RootPassword)) ∧
     (VirtualMachineParameters.decode (p.encode.without "rootPassword")).map
        (fun r => r.RootPassword) = some [] ∧
     (VirtualMachineParameters.decode p.encode).map (fun r => r.Hostname)
        = some (goBytes (toValidUTF8 p.Hostname)) ∧
     (VirtualMachineParameters.decode (p.encode.without "hostname")).map
        (fun r => r.Hostname) = some [] ∧
     (VirtualMachineParameters.decode p.encode).map (fun r => r.DiskSpace)
        = some (p.DiskSpace) ∧
     (VirtualMachineParameters.decode (p.encode.without "diskSpace")).map
        (fun r => r.DiskSpace) = some Int64.zero ∧
     (VirtualMachineParameters.decode p.encode).map (fun r => r.RAM)
        = some (p.RAM) ∧
     (VirtualMachineParameters.decode (p.encode.without "ram")).map
        (fun r => r.RAM) = some Int64.zero ∧
     (VirtualMachineParameters.decode p.encode).map (fun r => r.Bandwidth)
        = some (p.Bandwidth) ∧
     (VirtualMachineParameters.decode (p.encode.without "bandwidth")).map
        (fun r => r.Bandwidth) = some Int64.zero ∧
     (VirtualMachineParameters.decode p.encode).map (fun r => r.UserId)
        = some (p.UserId) ∧
     (VirtualMachineParameters.decode (p.encode.without "userId")).map
        (fun r => r.UserId) = some Int64.zero ∧
     (VirtualMachineParameters.decode p.encode).map (fun r => r.CPUCores)
        = some (p.CPUCores) ∧
     (VirtualMachineParameters.decode (p.encode.without "cpuCores")).map
        (fun r => r.CPUCores) = some Int64.zero ∧
     (VirtualMachineParameters.decode p.encode).map (fun r => r.OSId)
        = some (p.OSId) ∧
     (VirtualMachineParameters.decode (p.encode.without "osId")).map
        (fun r => r.OSId) = some Int64.zero) :=
  ⟨decodeMembers_keeps kvs VirtualMachineParameters.zero q h,
    by rw [decode_encode]; rfl, decode_without_virtualization p,
    by rw [decode_encode]; rfl, decode_without_rootPassword p,
    by rw [decode_encode]; rfl, decode_without_hostname p,
    by rw [decode_encode]; rfl, decode_without_diskSpace p,
    by rw [decode_encode]; rfl, decode_without_ram p,
    by rw [decode_encode]; rfl, decode_without_bandwidth p,
    by rw [decode_encode]; rfl, decode_without_userId p,
    by rw [decode_encode]; rfl, decode_without_cpuCores p,
    by rw [decode_encode]; rfl, decode_without_osId p⟩

/-- C6, an instance: a document with the hostname alone decodes, and the
eight other required fields hold their zero values. -/
theorem required_absent_witness :
    VirtualMachineParameters.decode (JSON.obj hostnameOnlyDoc)
      = some { VirtualMachineParameters.zero with Hostname := gostr "vm1" } ∧
    (lacksKey "virtualization" hostnameOnlyDoc → ({ VirtualMachineParameters.zero with Hostname := gostr "vm1" } : VirtualMachineParameters).Virtualization = []) ∧
    (lacksKey "rootPassword" hostnameOnlyDoc → ({ VirtualMachineParameters.zero with Hostname := gostr "vm1" } : VirtualMachineParameters).RootPassword = []) ∧
    (lacksKey "hostname" hostnameOnlyDoc → ({ VirtualMachineParameters.zero with Hostname := gostr "vm1" } : VirtualMachineParameters).Hostname = []) ∧
    (lacksKey "diskSpace" hostnameOnlyDoc → ({ VirtualMachineParameters.zero with Hostname := gostr "vm1" } : VirtualMachineParameters).DiskSpace = Int64.zero) ∧
    (lacksKey "ram" hostnameOnlyDoc → ({ VirtualMachineParameters.zero with Hostname := gostr "vm1" } : VirtualMachineParameters).RAM = Int64.zero) ∧
    (lacksKey "bandwidth" hostnameOnlyDoc → ({ VirtualMachineParameters.zero with Hostname := gostr "vm1" } : VirtualMachineParameters).Bandwidth = Int64.zero) ∧
    (lacksKey "userId" hostnameOnlyDoc → ({ VirtualMachineParameters.zero with Hostname := gostr "vm1" } : VirtualMachineParameters).UserId = Int64.zero) ∧
    (lacksKey "cpuCores" hostnameOnlyDoc → ({ VirtualMachineParameters.zero with Hostname := gostr "vm1" } : VirtualMachineParameters).CPUCores = Int64.zero) ∧
    (lacksKey "osId" hostnameOnlyDoc → ({ VirtualMachineParameters.zero with Hostname := gostr "vm1" } : VirtualMachineParameters).OSId = Int64.zero) :=
  ⟨by decide, (required_absent hostnameOnlyDoc _ kvmExample (by decide)).1⟩

/-- C6 fails as stated: the empty object, which lacks all nine required keys,
is not rejected; it decodes to the zero value. -/
theorem required_absent_accepted :
    VirtualMachineParameters.decode (JSON.obj []) = some VirtualMachineParameters.zero :=
  rfl

/-- C5, as amended: a list with zero items always has the key `items` in its
encoding; the value is the empty array when `Items` is a non-nil slice and
`null` when `Items` is the nil slice, as in the zero value. Decoding either
encoding succeeds and yields a list with zero items, its `Items` nil after
`null` and non-nil after the empty array. -/
theorem zero_items_list {VM : Type} (enc : VM → JSON) (dec : VM → JSON → Option VM)
    (zero : VM) (l : VirtualMachineList VM) (h : l.Items.len = 0) :
    (l.encode enc).lookup "items"
      = some (match l.Items with
          | none => JSON.null
          | some _ => JSON.arr []) ∧
    (VirtualMachineList.decode dec zero (l.encode enc)).map (fun r => r.Items.len)
      = some 0 ∧
    (VirtualMachineList.decode dec zero (l.encode enc)).map (fun r => r.Items)
      = some l.Items := by
  refine ⟨?_, ?_, ?_⟩
  · have hi : encSlice enc l.Items = (match l.Items with
        | none => JSON.null
        | some _ => JSON.arr []) := by
      obtain ⟨tm, m, items⟩ := l
      cases items with
      | none => rfl
      | some xs =>
        cases xs with
        | nil => rfl
        | cons x xs => simp [Slice.len] at h
    rw [← hi]
    simp [VirtualMachineList.encode, JSON.lookup, VirtualMachineList.members, getKey_append,
      getKey_cons, getKey_omitEmptyString_ne]
  · simp only [VirtualMachineList.encode, VirtualMachineList.decode]
    rw [VirtualMachineList.decodeListMembers_members enc dec zero l h]
    simp [h]
  · simp only [VirtualMachineList.encode, VirtualMachineList.decode]
    rw [VirtualMachineList.decodeListMembers_members enc dec zero l h]
    rfl

/-- C5, an instance: the list whose items are a non-nil empty slice encodes
them as the empty array and decodes to a list with zero items. -/
theorem zero_items_list_witness :
    emptyListExample.Items.len = 0 ∧
    (emptyListExample.encode VirtualMachineParameters.encode).lookup "items"
      = some (JSON.arr []) ∧
    (VirtualMachineList.decode VirtualMachineParameters.decodeInto
        VirtualMachineParameters.zero
        (emptyListExample.encode VirtualMachineParameters.encode)).map
      (fun r => r.Items.len) = some 0 ∧
    (VirtualMachineList.decode VirtualMachineParameters.decodeInto
        VirtualMachineParameters.zero
        (emptyListExample.encode VirtualMachineParameters.encode)).map
      (fun r => r.Items) = some (some []) :=
  ⟨rfl, zero_items_list VirtualMachineParameters.encode VirtualMachineParameters.decodeInto
    VirtualMachineParameters.zero emptyListExample rfl⟩

/-- C5 fails as stated: the zero-value list has zero items and encodes them
as `null`, not as an empty sequence. -/
theorem zero_value_list_null :
    zeroListExample.Items.len = 0 ∧
    (zeroListExample.encode VirtualMachineParameters.encode).lookup "items"
      = some JSON.null :=
  ⟨rfl, rfl⟩

/-- C8: `init` adds one function to the scheme builder, registering exactly
the two types `VirtualMachine` and `VirtualMachineList`. When applying the
builder to a scheme succeeds, the scheme knows each of the two types under its
own kind; applying the builder again to the resulting scheme succeeds and
leaves it as it is, and a builder on which `init` ran twice yields the same
scheme as one on which it ran once. -/
theorem registration_once
    (metaKinds : GroupVersion → List (GroupVersionKind × GoType))
    (bld : Builder) (s s1 : Scheme)
    (h : (init bld).AddToScheme metaKinds s = some s1) :
    (init bld).SchemeBuilder
      = bld.SchemeBuilder ++ [[VirtualMachineType, VirtualMachineListType]] ∧
    s1.gvkToType (bld.GroupVersion.WithKind "VirtualMachine") = some VirtualMachineType ∧
    s1.gvkToType (bld.GroupVersion.WithKind "VirtualMachineList")
      = some VirtualMachineListType ∧
    bld.GroupVersion.WithKind "VirtualMachine" ∈ s1.typeToGVK VirtualMachineType ∧
    bld.GroupVersion.WithKind "VirtualMachineList" ∈ s1.typeToGVK VirtualMachineListType ∧
    (init bld).AddToScheme metaKinds s1 = some s1 ∧
    (init (init bld)).AddToScheme metaKinds s = some s1 := by
  have hrun : Scheme.addAll (allCalls metaKinds bld.GroupVersion (init bld).SchemeBuilder) s
      = some s1 := by
    rw [← runAll_eq_addAll]
    exact h
  have hk := (Scheme.addAll_knows _ s s1 hrun).1
  have hvm := hk (bld.GroupVersion.WithKind "VirtualMachine", VirtualMachineType)
    (by simp [init, Builder.Register, allCalls_append, allCalls, VirtualMachineType])
  have hvl := hk (bld.GroupVersion.WithKind "VirtualMachineList", VirtualMachineListType)
    (by simp [init, Builder.Register, allCalls_append, allCalls, VirtualMachineListType])
  refine ⟨rfl, hvm.2.1, hvl.2.1, hvm.2.2, hvl.2.2, ?_, ?_⟩
  · show runAll metaKinds bld.GroupVersion (init bld).SchemeBuilder s1 = some s1
    rw [runAll_eq_addAll]
    exact Scheme.addAll_idem _ s s1 hrun
  · show runAll metaKinds bld.GroupVersion (init (init bld)).SchemeBuilder s = some s1
    rw [runAll_eq_addAll, ← hrun]
    simp only [init, Builder.Register, allCalls_append]
    exact Scheme.addAll_repeat _ _ s

/-- C8, an instance: registration into the empty scheme from a builder
without earlier registrations succeeds, and a second application leaves the
resulting scheme unchanged. -/
theorem registration_once_witness :
    (init { GroupVersion := exampleGroupVersion, SchemeBuilder := [] }).AddToScheme
        (fun _ => []) NewScheme = some exampleScheme ∧
    (init { GroupVersion := exampleGroupVersion, SchemeBuilder := [] }).SchemeBuilder
      = [[VirtualMachineType, VirtualMachineListType]] ∧
    (init { GroupVersion := exampleGroupVersion, SchemeBuilder := [] }).AddToScheme
        (fun _ => []) exampleScheme = some exampleScheme :=
  have h : (init { GroupVersion := exampleGroupVersion, SchemeBuilder := [] }).AddToScheme
      (fun _ => []) NewScheme = some exampleScheme := rfl
  have r := registration_once (fun _ => [])
    { GroupVersion := exampleGroupVersion, SchemeBuilder := [] } NewScheme exampleScheme h
  ⟨h, r.1, r.2.2.2.2.2.1⟩
end v1alpha1
